import Mathlib

/-!
Verification development for the x402-solana pay-per-unlock demo.

The repository is TypeScript; the definitions below are a shallow embedding
of the functions the verified properties are about:

* `server/rag/knowledge.ts` — the hardcoded knowledge base (`KNOWLEDGE`),
  `findBestMatch`, `firstSentence`, `dailyPick`;
* `server/routes/rag.ts` — the `POST /rag/preview` handler;
* `server/routes/quiz.ts` — the `POST /quiz/next` handler and its in-memory
  session store;
* `web/lib/quest.ts` — the client progress store (`awardUnlock`,
  `recordDailyCompletion`, `checkBadges`, `getRank`);
* `web/lib/x402-solana.ts` — `createPaymentTransaction` and
  `wrapFetchWithPaymentSolana` (the gated-fetch orchestrator), embedded with
  an explicit event trace for the temporal properties.

JavaScript strings are modelled as Lean `String`; `String.prototype.includes`
is substring containment, `toLowerCase` is per-character ASCII lowering
(the knowledge-base questions are ASCII apart from typographic punctuation,
which lowering leaves unchanged).  Machine numbers are `Nat`/`Int`
(token amounts are JavaScript `BigInt`s, i.e. exact integers; millisecond
timestamps are exact integers well inside the IEEE-754 exact range).
-/

/-- `sub` occurs as a contiguous run inside `l`. -/
def listInfixOf (sub : List Char) : List Char → Bool
  | [] => sub.isEmpty
  | c :: rest => sub.isPrefixOf (c :: rest) || listInfixOf sub rest

/-- JavaScript `s.includes(sub)` substring test. -/
def jsIncludes (s sub : String) : Bool :=
  listInfixOf sub.data s.data

/-- JavaScript `toLowerCase` restricted to ASCII case mapping (the inputs
involved contain no non-ASCII letters). -/
def jsToLower (s : String) : String :=
  String.mk (s.data.map Char.toLower)

/-- Strip leading and trailing whitespace (JavaScript `trim`; the inputs
involved contain only ASCII whitespace). -/
def listTrim (cs : List Char) : List Char :=
  ((cs.dropWhile Char.isWhitespace).reverse.dropWhile Char.isWhitespace).reverse

/-- JavaScript `trim`. -/
def jsTrim (s : String) : String :=
  String.mk (listTrim s.data)

/-- JavaScript `s.length` (UTF-16 code units; the strings involved contain
no characters outside the basic multilingual plane, where one character is
one code unit). -/
def jsLength (s : String) : Nat :=
  s.data.length

def jsWordsAux : List Char → List Char → List String
  | [], cur => if cur.isEmpty then [] else [String.mk cur.reverse]
  | c :: rest, cur =>
      if c.isWhitespace then
        if cur.isEmpty then jsWordsAux rest [] else String.mk cur.reverse :: jsWordsAux rest []
      else jsWordsAux rest (c :: cur)

/-- JavaScript `split(/\s+/)`: maximal whitespace runs separate the words.
On trimmed input (the only way `findBestMatch` calls it) this is exactly
the regex split: no empty fragments arise. -/
def jsSplitWs (s : String) : List String :=
  jsWordsAux s.data []

/-- Truthiness of a JavaScript optional string: `undefined` and `""` are
falsy, every other string is truthy. -/
def jsStrFalsy : Option String → Bool
  | none => true
  | some s => s.isEmpty

/-- One knowledge-base record (`KBEntry` in `server/rag/knowledge.ts`).
Only the fields read by the verified routes are embedded: `id`, `topic`,
`q` (the question) and `aMd` (the markdown answer).  The optional quiz
fields (`quizOptions`, `explanationShort`, `explanationFull`) are not
consumed by `findBestMatch`, `firstSentence`, `dailyPick` or the `/rag`
handlers and are omitted. -/
structure KBEntry where
  id : String
  topic : String
  q : String
  aMd : String
  deriving DecidableEq, Repr

/-- The hardcoded knowledge base, all 41 records in source order
(`server/rag/knowledge.ts`, `export const KNOWLEDGE`).  Braces and ASCII
apostrophes inside the string literals are written with the `\x7b`,
`\x7d`, `\x27` escapes. -/
def KNOWLEDGE : List KBEntry := [
  { id := "sb-accounts", topic := "Solana Basics",
    q := "What is a Solana account?",
    aMd := "A Solana account is on-chain storage with an address and an owner.\nIt can hold data or lamports (SOL) and is controlled by an owner program.\nWallets control normal system accounts; programs own data accounts.\nEvery read/write happens through accounts passed to an instruction.\nThink: account = row of state on-chain, not a web2 login.\n\nExample: create a system account in TS\n```ts\nSystemProgram.createAccount(\x7b fromPubkey, newAccountPubkey, space, lamports, programId \x7d)\n```" },
  { id := "sb-program", topic := "Solana Basics",
    q := "What is a Solana program?",
    aMd := "A program is deployed on-chain code that executes when called.\nIt is stateless between calls; all state lives in accounts.\nPrograms validate and modify accounts they receive.\nYou reference a program by its program id (public key).\n\nExample: calling a program instruction\n```ts\nnew Transaction().add(new TransactionInstruction(\x7b programId, keys, data \x7d))\n```" },
  { id := "sb-instruction", topic := "Solana Basics",
    q := "What is a Solana instruction?",
    aMd := "An instruction names a program and passes accounts + data.\nIt declares which accounts are read/write and which must sign.\nData encodes which action to run and with what params.\nTransactions can bundle multiple instructions in order.\n\nShape in TS\n```ts\nnew TransactionInstruction(\x7b programId, keys: [\x7bpubkey,isSigner,isWritable\x7d], data \x7d)\n```" },
  { id := "sb-transaction", topic := "Solana Basics",
    q := "What is a Solana transaction?",
    aMd := "A transaction is a signed bundle of one or more instructions.\nIf any instruction fails, the whole transaction fails (atomic).\nSignatures authorize account changes and fee payment.\nBlockhash + signatures make it unique and recent.\n\nCreate & send in TS\n```ts\nconst tx = new Transaction().add(ix1, ix2)\nawait sendAndConfirmTransaction(connection, tx, [payer])\n```" },
  { id := "sb-lamports", topic := "Solana Basics",
    q := "What are lamports?",
    aMd := "Lamports are the smallest unit of SOL (like cents for dollars).\n1 SOL = 1,000,000,000 lamports (1e9).\nRent and fees are paid in lamports.\nAmounts in code generally use u64 lamports.\n\nTS helper\n```ts\nconst LAMPORTS_PER_SOL = 1_000_000_000\n```" },
  { id := "sb-rent", topic := "Solana Basics",
    q := "What does rent-exempt mean?",
    aMd := "Accounts must hold a minimum lamports balance to stay alive.\nIf they have at least the network\x27s minimum, they\x27re rent-exempt.\nWhen you \"init\" or create, fund enough lamports for space.\nResize (realloc) may change the rent requirement.\n\nClient check\n```ts\nconnection.getMinimumBalanceForRentExemption(space)\n```" },
  { id := "sb-system-program", topic := "Solana Basics",
    q := "What does the System Program do?",
    aMd := "The System Program creates, funds, and assigns accounts.\nIt transfers lamports and allocates space.\nOther programs often call it during initialization.\n\nCreate account (Rust)\n```rust\nsystem_instruction::create_account(&from, &new, lamports, space, &owner)\n```" },
  { id := "sb-sysvars", topic := "Solana Basics",
    q := "What are sysvars?",
    aMd := "Sysvars are read-only accounts with cluster data (clock, rent, etc.).\nPrograms read sysvars to make time/rent/slot decisions.\nThey are provided like any other account in instructions.\n\nClock example (Rust)\n```rust\nlet now = Clock::get()?.unix_timestamp;\n```" },
  { id := "sb-ata-intro", topic := "Solana Basics",
    q := "What is an Associated Token Account (ATA)?",
    aMd := "An ATA is the standard token account for (owner, mint).\nIt has a predictable address and simplifies UX.\nUse the Associated Token Program to create if missing.\n\nTS example\n```ts\ngetOrCreateAssociatedTokenAccount(connection, payer, mint, owner)\n```" },
  { id := "sb-signers", topic := "Solana Basics",
    q := "What counts as a signer in a transaction?",
    aMd := "Signers authorize changes or actions requiring approval.\nA signer could be a wallet keypair or a PDA (via seeds).\nIn TS, include keypairs in sendAndConfirmTransaction.\nFor PDAs, provide signer seeds in CPI/Invoke.\n\nTS snippet\n```ts\nawait sendAndConfirmTransaction(conn, tx, [payerKeypair])\n```" },
  { id := "ab-context", topic := "Anchor Basics",
    q := "What is Context in Anchor?",
    aMd := "Context is the typed bundle of accounts your instruction uses.\nAnchor validates ownership, signer, and mutability before your logic runs.\nAccess accounts with `ctx.accounts` inside handlers.\n\nRust\n```rust\npub fn do_stuff(ctx: Context<DoStuff>) -> Result<()> \x7b\n  let accs = &mut ctx.accounts;\n  Ok(())\n\x7d\n```" },
  { id := "ab-derive-accounts", topic := "Anchor Basics",
    q := "Why use #[derive(Accounts)]?",
    aMd := "It auto-validates that required accounts match your constraints.\nYou describe constraints in the struct; Anchor checks before executing.\nThis reduces manual owner/signer checks and improves UX.\n\nRust\n```rust\n#[derive(Accounts)]\npub struct Create<\x27info> \x7b\n  #[account(mut)] pub payer: Signer<\x27info>,\n  pub system_program: Program<\x27info, System>,\n\x7d\n```" },
  { id := "ab-constraints", topic := "Anchor Basics",
    q := "How do constraints work in Anchor?",
    aMd := "Constraints are guardrails checked before your handler.\nThey verify owner, seeds, relations, sizes, and more.\nUse has_one, seeds, bump, and relations for safety.\n\nRust\n```rust\n#[account(has_one = authority, seeds=[b\"STATE\"], bump)]\npub state: Account<\x27info, State>,\n```" },
  { id := "ab-init", topic := "Anchor Basics",
    q := "When to use init vs init_if_needed?",
    aMd := "Use `init` when the account must not exist yet.\nUse `init_if_needed` when it may already exist.\nBoth allocate space, assign owner, and fund rent with a payer.\nBe explicit with seeds and bump for deterministic PDAs.\n\nRust\n```rust\n#[account(init, payer = payer, space = 8 + SIZE, seeds=[...], bump)]\n```" },
  { id := "ab-space-sizing", topic := "Anchor Basics",
    q := "How do I size accounts correctly?",
    aMd := "Plan struct size before deploy: 8 bytes discriminator + fields.\nAdd padding for future growth when possible.\nResizing uses realloc with payer and checks.\nDocument your math to avoid bugs.\n\nSize example\n```rust\nconst SIZE: usize = 8 /*disc*/ + 32 /*pubkey*/ + 8 /*u64*/;\n```" },
  { id := "ab-events", topic := "Anchor Basics",
    q := "What are Anchor events for?",
    aMd := "Events are cheap, structured logs for off-chain listeners.\nEmit analytics breadcrumbs without writing state.\nDo not rely on events as the source of truth.\n\nRust\n```rust\n#[event] pub struct Created \x7b pub id: u64 \x7d\nemit!(Created \x7b id \x7d)\n```" },
  { id := "ab-testing", topic := "Anchor Basics",
    q := "What’s a good testing strategy in Anchor?",
    aMd := "Write unit tests for pure Rust logic first.\nAdd integration tests for full instruction flows.\nSeed PDAs deterministically; assert events and balances.\nFail fast on constraint errors to learn early.\n\nRust test\n```rust\n#[tokio::test]\nasync fn it_works() \x7b /* setup, send ix, assert */ \x7d\n```" },
  { id := "ab-accounts-vs-state", topic := "Anchor Basics",
    q := "Where does state live in Anchor programs?",
    aMd := "All mutable state lives in accounts that you pass to instructions.\nPrograms themselves are stateless between calls.\nDesign explicit PDAs for config/records; avoid hidden globals.\nEvents mirror actions but do not store truth.\n\nRust\n```rust\n#[account]\npub struct Config \x7b pub admin: Pubkey \x7d\n```" },
  { id := "ab-idl", topic := "Anchor Basics",
    q := "What is the Anchor IDL used for?",
    aMd := "IDL is a JSON description of your program\x27s interface.\nClients generate methods and types from it.\nIt documents instructions, accounts, and errors.\nKeep it versioned and in sync with deployments.\n\nView with CLI\n```bash\nanchor idl fetch <PROGRAM_ID>\n```" },
  { id := "ab-realloc", topic := "Anchor Basics",
    q := "How do I safely resize an account (realloc)?",
    aMd := "Use realloc with payer and proper ownership checks.\nEnsure the new size’s rent-exempt minimum is funded.\nAvoid shrinking below actual data; copy carefully.\nTest realloc paths for edge cases.\n\nRust\n```rust\nlet acct = &mut ctx.accounts.my;\nacct.realloc(new_len, false)?;\n```" },
  { id := "ab-errors", topic := "Anchor Basics",
    q := "How should I design clear errors in Anchor?",
    aMd := "Define precise error enums; avoid generic failures.\nSurface which field/constraint failed in messages.\nMap errors to user-facing hints in your dapp.\n\nRust\n```rust\n#[error_code]\npub enum Error \x7b #[msg(\"Invalid authority\")] InvalidAuthority \x7d\n```" },
  { id := "pp-what", topic := "PDAs & Programs",
    q := "What is a PDA?",
    aMd := "A PDA is a program-owned address derived from seeds and a bump.\nIt has no private key; the program signs for it using seeds.\nGreat for storing program state at predictable addresses.\n\nRust derive\n```rust\nlet (pda, bump) = Pubkey::find_program_address(&[b\"STATE\"], &program_id);\n```" },
  { id := "pp-seeds-bump", topic := "PDAs & Programs",
    q := "How do seeds and bump work together?",
    aMd := "Seeds are inputs; bump helps avoid collisions.\nfind_program_address returns both PDA and bump.\nStore bump if needed; use same seeds across flows.\n\nRust\n```rust\nlet (pda, bump) = Pubkey::find_program_address(&[b\"USER\", user.key().as_ref()], &id());\n```" },
  { id := "pp-as-signer", topic := "PDAs & Programs",
    q := "How does a PDA sign without a keypair?",
    aMd := "Programs pass signer seeds during invoke (or CPI).\nRuntime checks the seeds/bump match the PDA and owner.\nIf valid, the PDA counts as a signer for that call.\n\nRust (CPI)\n```rust\ninvoke_signed(&ix, &accounts, &[&[b\"STATE\", &[bump]]])?;\n```" },
  { id := "pp-naming", topic := "PDAs & Programs",
    q := "How should I name PDA seeds?",
    aMd := "Use fixed namespace tags and stable order.\nAvoid human text that might change; prefer bytes tags.\nAdd entity-specific sub-seeds (e.g., user/pubkey).\n\nExample seeds\n```rust\n&[b\"APP\", b\"USER\", user.key().as_ref()]\n```" },
  { id := "pp-authority", topic := "PDAs & Programs",
    q := "What is an authority PDA pattern?",
    aMd := "Use a PDA as the authority for mints, vaults, or config.\nProgram signs via seeds to move tokens or update settings.\nPrevents EOAs from holding critical privileges.\n\nToken example\n```rust\nlet authority = Pubkey::find_program_address(&[b\"AUTH\"], &id()).0;\n// Set mint_authority = authority\n```" },
  { id := "pp-cpi-basics", topic := "PDAs & Programs",
    q := "What is a CPI (cross-program invocation)?",
    aMd := "A CPI is when your program calls another program.\nYou pass that program’s required accounts and data.\nUse invoke/invoke_signed depending on PDA signers.\n\nRust\n```rust\ninvoke(&ix, &accounts)?; // or invoke_signed(...)\n```" },
  { id := "pp-migrations", topic := "PDAs & Programs",
    q := "How do I migrate from one PDA to another?",
    aMd := "Plan new seeds; write a one-time instruction to copy state.\nFreeze writes to the old address during migration.\nEmit events; keep a version field for tracking.\n\nIdea\n```rust\n// read old, write new, mark old as migrated\n```" },
  { id := "pp-security", topic := "PDAs & Programs",
    q := "Common PDA security mistakes?",
    aMd := "Using attacker-controlled seeds or changing seed order later.\nForgetting has_one/owner checks on related accounts.\nMismatched bumps that break signer seeds.\n\nChecklist\n```md\n• Stable seeds\n• Owner checks\n• Relation checks\n• Tests try hostile swaps\n```" },
  { id := "pp-cpi-ids", topic := "PDAs & Programs",
    q := "Why check program IDs in CPIs?",
    aMd := "Always ensure you invoke the intended program ID.\nPrevent account/prog swaps that redirect funds.\nDocument required program IDs for integrators.\n\nRust\n```rust\nrequire_keys_eq!(token_program.key(), spl_token::ID);\n```" },
  { id := "pp-docs", topic := "PDAs & Programs",
    q := "What should I document for integrators?",
    aMd := "Document PDAs and seed formulas; list instructions and constraints.\nPublish required program IDs and account layouts.\nProvide example clients and events.\n\nDoc bullets\n```md\n• PDA seeds\n• Accounts + sizes\n• Required program IDs\n• Example TS/Rust calls\n```" },
  { id := "tt-atomic", topic := "Transactions & Troubleshooting",
    q := "Are Solana transactions atomic?",
    aMd := "Yes—either all included instructions succeed or all fail.\nBundle checks + updates safely, but watch compute/size.\nEmit events to aid off-chain recovery flows.\n\nTS\n```ts\nconst tx = new Transaction().add(ix1, ix2)\n// If ix2 fails, ix1 effects are rolled back\n```" },
  { id := "tt-compute", topic := "Transactions & Troubleshooting",
    q := "How to handle compute budget limits?",
    aMd := "Optimize heavy loops and expensive CPIs.\nSplit work across smaller instructions when needed.\nRequest more compute wisely via the budget program.\n\nTS\n```ts\nComputeBudgetProgram.setComputeUnitLimit(\x7b units: 1_000_000 \x7d)\n```" },
  { id := "tt-order", topic := "Transactions & Troubleshooting",
    q := "Does instruction order matter?",
    aMd := "Yes—later instructions see earlier writes.\nValidate before mutating; initialize before use.\nClose last to reclaim lamports cleanly.\n\nComment the order\n```md\n1) validate, 2) mutate, 3) CPI, 4) close\n```" },
  { id := "tt-sim", topic := "Transactions & Troubleshooting",
    q := "Why simulate transactions before sending?",
    aMd := "Simulation reveals failures without fees and prints logs.\nSanity-check accounts and compute usage ahead of time.\nState can still change between sim and send—don’t assume success.\n\nTS\n```ts\nconnection.simulateTransaction(tx)\n```" },
  { id := "tt-retries", topic := "Transactions & Troubleshooting",
    q := "How should I handle retries?",
    aMd := "Treat retries as normal; use idempotency and replace-once.\nShow pending states in UI to prevent double clicks.\nBack off instead of hammering the RPC.\n\nIdea\n```md\n• Idempotency keys\n• Replace recent blockhash once\n• Log signatures\n```" },
  { id := "tt-discriminator", topic := "Transactions & Troubleshooting",
    q := "Discriminator mismatch—what does it mean?",
    aMd := "Anchor couldn\x27t match the 8-byte account discriminator.\nLikely struct layout changed or account created by older program.\nMigrate or recreate with the new layout; test on devnet first.\n\nRust\n```md\n• New account with updated struct\n• Or one-time migration instruction\n```" },
  { id := "tt-constraint", topic := "Transactions & Troubleshooting",
    q := "Why am I seeing a constraint violation?",
    aMd := "An Anchor constraint check failed (owner, seeds, has_one, signer, etc.).\nCompare Context struct to passed accounts; verify seeds and bump.\nPrint addresses to eyeball mismatches in tests.\n\nRust\n```md\n• Check #[account(...)] rules\n• Verify seeds order\n• Ensure required signers\n```" },
  { id := "tt-owner", topic := "Transactions & Troubleshooting",
    q := "Account owned by wrong program—how to resolve?",
    aMd := "The passed account isn’t owned by your program.\nEnsure it was created/assigned with your program id.\nFor SPL accounts, use the correct token program constraints.\n\nRust\n```md\n• Create with SystemProgram + owner = your program id\n• Or use proper Program<\x27info, Token>\n```" },
  { id := "tt-signature", topic := "Transactions & Troubleshooting",
    q := "Missing required signature—what to check?",
    aMd := "Signer flags must match who actually signs.\nWallets: include keypair in send/sign.\nPDAs: provide signer seeds in invoke_signed.\n\nTS/Rust\n```md\n• tx includes keypair\n• invoke_signed([...seeds])\n```" },
  { id := "tt-rent", topic := "Transactions & Troubleshooting",
    q := "Why is my account not rent-exempt?",
    aMd := "Space or network rent changed; you funded too little.\nRecalculate minimum after any realloc or size change.\nTop up with a transfer from a payer.\n\nTS\n```ts\nconst min = await connection.getMinimumBalanceForRentExemption(space)\n```" }
]

/-! ## firstSentence (`server/rag/knowledge.ts`)

`firstSentence` applies three regex rewrites and then extracts the first
sentence:

```
text.replace(/```[\s\S]*?```/g, "")
    .replace(/\[([^\]]+)\]\([^\)]+\)/g, "$1")
    .replace(/[#*_`]/g, "")
    .trim()
```

The rewrites are modelled as left-to-right scans over the character list,
exactly mirroring the regex engine: at each position the pattern either
matches (minimally, for the non-greedy code-fence pattern; maximally, for
the greedy character classes) and scanning resumes after the match, or the
character is kept and scanning advances one position.  The scans use a
fuel argument equal to the input length, which strictly bounds the number
of steps, so the fuel never runs out on the initial call. -/

/-- Find the next ``` fence; return the remainder after it. -/
def findFenceClose : List Char → Option (List Char)
  | '`' :: '`' :: '`' :: rest => some rest
  | _ :: rest => findFenceClose rest
  | [] => none

/-- Scan for `/```[\s\S]*?```/g` and delete each match. -/
def stripCodeBlocksAux : Nat → List Char → List Char
  | 0, cs => cs
  | _ + 1, [] => []
  | fuel + 1, '`' :: '`' :: '`' :: rest =>
      match findFenceClose rest with
      | some rem => stripCodeBlocksAux fuel rem
      | none => '`' :: stripCodeBlocksAux fuel ('`' :: '`' :: rest)
  | fuel + 1, c :: rest => c :: stripCodeBlocksAux fuel rest

def stripCodeBlocks (cs : List Char) : List Char :=
  stripCodeBlocksAux cs.length cs

/-- Try to match `([^\]]+)\]\(([^\)]+)\)` (the part of the markdown-link
pattern after the opening `[`); on success return the link text and the
remainder after the closing parenthesis. -/
def parseMdLink (cs : List Char) : Option (List Char × List Char) :=
  let txt := cs.takeWhile (fun c => c != ']')
  if txt.isEmpty then none
  else
    match cs.dropWhile (fun c => c != ']') with
    | ']' :: '(' :: r2 =>
        let url := r2.takeWhile (fun c => c != ')')
        if url.isEmpty then none
        else
          match r2.dropWhile (fun c => c != ')') with
          | ')' :: rem => some (txt, rem)
          | _ => none
    | _ => none

/-- Scan for `/\[([^\]]+)\]\([^\)]+\)/g` and replace each match by the
link text. -/
def stripMdLinksAux : Nat → List Char → List Char
  | 0, cs => cs
  | _ + 1, [] => []
  | fuel + 1, '[' :: rest =>
      match parseMdLink rest with
      | some (txt, rem) => txt ++ stripMdLinksAux fuel rem
      | none => '[' :: stripMdLinksAux fuel rest
  | fuel + 1, c :: rest => c :: stripMdLinksAux fuel rest

def stripMdLinks (cs : List Char) : List Char :=
  stripMdLinksAux cs.length cs

/-- `/[#*_`]/g` deletion. -/
def stripMdChars (cs : List Char) : List Char :=
  cs.filter (fun c => !(c == '#' || c == '*' || c == '_' || c == '`'))

/-- `firstSentence(text)` from `server/rag/knowledge.ts`: strip fenced code
blocks, rewrite markdown links to their text, delete `#*_` and backtick,
trim; then return the first maximal run of non-`.!?` characters together
with its terminator (`/^[^.!?]+[.!?]/`, trimmed), falling back to the
first 100 characters (plus `"..."` when truncated). -/
def firstSentence (text : String) : String :=
  let cs := listTrim (stripMdChars (stripMdLinks (stripCodeBlocks text.data)))
  let head := cs.takeWhile (fun c => !(c == '.' || c == '!' || c == '?'))
  match head, cs.dropWhile (fun c => !(c == '.' || c == '!' || c == '?')) with
  | _ :: _, t :: _ => String.mk (listTrim (head ++ [t]))
  | _, _ =>
      String.mk (listTrim (cs.take 100)) ++ (if 100 < cs.length then "..." else "")

/-! ## findBestMatch (`server/rag/knowledge.ts`) -/

/-- The stop-word list of `findBestMatch`. -/
def stopWords : List String :=
  ["how", "do", "the", "you", "and", "for", "get", "what", "why", "when",
   "where", "are", "with"]

/-- The two-word sliding-window phrases
(`for (let i = 0; i < questionKeywords.length - 1; i++) phrases.push(...)`). -/
def twoWordPhrases : List String → List String
  | a :: b :: rest => (a ++ " " ++ b) :: twoWordPhrases (b :: rest)
  | _ => []

/-- The keyword score of one record: for every keyword contained in the
lowercased question of the record add its character length; add 5 when at
least two keywords matched.  (The source accumulates `score` and
`matched` in one loop over the keywords; the filtered-list sum and count
below are that loop.) -/
def entryScore (questionKeywords : List String) (normalizedEntryQ : String) : Nat :=
  let hits := questionKeywords.filter (fun k => jsIncludes normalizedEntryQ k)
  let score := hits.foldl (fun s k => s + jsLength k) 0
  if 2 ≤ hits.length then score + 5 else score

/-- The `for (const entry of KNOWLEDGE)` loop of `findBestMatch`, with the
running `bestMatch`/`bestScore` accumulator, followed by the final
`bestScore >= 8 && bestMatch ? bestMatch : null`. -/
def findBestMatchAux (nq : String) (kws phrases : List String) :
    List KBEntry → Option KBEntry → Nat → Option KBEntry
  | [], best, bestScore =>
      if 8 ≤ bestScore && best.isSome then best else none
  | e :: rest, best, bestScore =>
      let neq := jsToLower e.q
      if neq == nq then some e
      else if jsIncludes neq nq || jsIncludes nq neq then some e
      else if phrases.any (fun ph => jsIncludes neq ph) then some e
      else
        let score := entryScore kws neq
        if bestScore < score then findBestMatchAux nq kws phrases rest (some e) score
        else findBestMatchAux nq kws phrases rest best bestScore

/-- `findBestMatch(question)` from `server/rag/knowledge.ts`. -/
def findBestMatch (question : String) : Option KBEntry :=
  let normalizedQuestion := jsTrim (jsToLower question)
  if normalizedQuestion == "" then none
  else
    let questionKeywords :=
      ((jsSplitWs normalizedQuestion).filter (fun w => decide (2 < jsLength w))).filter
        (fun w => !(stopWords.contains w))
    let phrases := twoWordPhrases questionKeywords
    findBestMatchAux normalizedQuestion questionKeywords phrases KNOWLEDGE none 0

/-! ## Dates (`new Date` arithmetic used by `dailyPick` and the quest store)

`dailyPick` computes `Math.floor((date.getTime() - new Date(date.getFullYear(), 0, 0).getTime()) / 86400000)`.
A parsed JavaScript `Date` is modelled by its UTC components (`DateTime`
below); the server runs with a UTC clock (`/rag/daily` passes
`new Date().toISOString()` and the ISO strings carry `Z`), so the
local-time accessors `getFullYear`/the local-midnight constructor
`new Date(y, 0, 0)` coincide with their UTC readings.  `getTime` is the
millisecond count since the Unix epoch, computed from the civil date with
the standard days-from-civil formula.  JavaScript `Math.floor(a / n)` on
integer millisecond counts is floor division; `Int` division in Lean is
Euclidean division, which agrees with floor division for the positive
divisors used here. -/

/-- Days between a civil date and 1970-01-01 (proleptic Gregorian). -/
def daysFromCivil (y m d : Int) : Int :=
  let y' := if m ≤ 2 then y - 1 else y
  let era := y' / 400
  let yoe := y' - era * 400
  let mp := (m + 9) % 12
  let doy := (153 * mp + 2) / 5 + d - 1
  let doe := yoe * 365 + yoe / 4 - yoe / 100 + doy
  era * 146097 + doe - 719468

/-- A parsed `Date`, by UTC components. -/
structure DateTime where
  year : Int
  month : Nat
  day : Nat
  hour : Nat
  minute : Nat
  second : Nat
  ms : Nat
  deriving DecidableEq, Repr

def isLeapYear (y : Int) : Bool :=
  (y % 4 == 0 && y % 100 != 0) || y % 400 == 0

def daysInMonth (y : Int) : Nat → Nat
  | 2 => if isLeapYear y then 29 else 28
  | 4 => 30
  | 6 => 30
  | 9 => 30
  | 11 => 30
  | _ => 31

/-- The component ranges of a real timestamp.  (`year ≥ 100` keeps clear of
the two-digit-year remapping in the `new Date(y, 0, 0)` constructor.) -/
def DateTime.Valid (t : DateTime) : Prop :=
  100 ≤ t.year ∧ 1 ≤ t.month ∧ t.month ≤ 12 ∧ 1 ≤ t.day ∧
    t.day ≤ daysInMonth t.year t.month ∧
    t.hour < 24 ∧ t.minute < 60 ∧ t.second < 60 ∧ t.ms < 1000

instance (t : DateTime) : Decidable t.Valid := by
  unfold DateTime.Valid; infer_instance

def timeOfDayMs (t : DateTime) : Int :=
  3600000 * (t.hour : Int) + 60000 * (t.minute : Int) + 1000 * (t.second : Int) + (t.ms : Int)

/-- `date.getTime()`: milliseconds since the Unix epoch. -/
def epochMillis (t : DateTime) : Int :=
  86400000 * daysFromCivil t.year (t.month : Int) (t.day : Int) + timeOfDayMs t

/-- The calendar day-of-year (Jan 1 ↦ 1): days since Dec 31 of the
previous year. -/
def dayOfYear (t : DateTime) : Int :=
  daysFromCivil t.year (t.month : Int) (t.day : Int) - daysFromCivil (t.year - 1) 12 31

/-- The `{id, q, topic}` projection `dailyPick` returns. -/
structure DailyPick where
  id : String
  q : String
  topic : String
  deriving DecidableEq, Repr

/-- `dailyPick(dateISO)` from `server/rag/knowledge.ts`, on the parsed
timestamp.  `dayOfYear` is `Math.floor((date.getTime() - new Date(y,0,0).getTime())/86400000)`
(`new Date(y, 0, 0)` is Dec 31 of the previous year); the index is the
JavaScript `%` (truncated remainder).  A negative index would make
`KNOWLEDGE[index]` `undefined` and the field reads throw; that path is
modelled as `none` (it is unreachable for valid timestamps). -/
def dailyPick (t : DateTime) : Option DailyPick :=
  if KNOWLEDGE.length = 0 then none
  else
    let dayOfYearJs : Int :=
      (epochMillis t - epochMillis ⟨t.year - 1, 12, 31, 0, 0, 0, 0⟩) / 86400000
    let index := Int.tmod dayOfYearJs (KNOWLEDGE.length : Int)
    if index < 0 then none
    else (KNOWLEDGE.get? index.toNat).map (fun e => ⟨e.id, e.q, e.topic⟩)

/-- For catalog position `k`, a 2024 date whose day-of-year is `k` for
`1 ≤ k ≤ 40` and `41` for `k = 0` — so the picks of 41 consecutive days
(Jan 1 – Feb 10, 2024) cover every record. -/
def dateForIdx (k : Nat) : DateTime :=
  if k = 0 then ⟨2024, 2, 10, 0, 0, 0, 0⟩
  else if k ≤ 31 then ⟨2024, 1, k, 0, 0, 0, 0⟩
  else ⟨2024, 2, k - 31, 0, 0, 0, 0⟩

/-! ## POST /rag/preview (`server/routes/rag.ts`) -/

/-- The JSON the `/rag/preview` handler answers with, together with the
HTTP status. -/
structure PreviewResponse where
  status : Nat
  type : Option String
  id : Option String
  preview : Option String
  error : Option String
  message : Option String
  deriving DecidableEq, Repr

/-- The `POST /rag/preview` handler.  `question?` is the `question` field
of the request body (`none` when absent or not a string — both take the
400 branch, as does a whitespace-only string). -/
def ragPreview (question? : Option String) : PreviewResponse :=
  match question? with
  | none =>
      ⟨400, none, none, none,
        some "Invalid request: \x27question\x27 field is required and must be a non-empty string", none⟩
  | some question =>
      if jsTrim question == "" then
        ⟨400, none, none, none,
          some "Invalid request: \x27question\x27 field is required and must be a non-empty string", none⟩
      else
        match findBestMatch (jsTrim question) with
        | none => ⟨404, some "no_match", none, none, none, some "Not in knowledge base yet."⟩
        | some m => ⟨200, some "preview", some m.id, some (firstSentence m.aMd), none, none⟩

/-! ## Specification-side matcher definitions (for claim C2)

`specRuleOrderedMatch` follows the wording of the claim: the whole record list
is scanned for an exact hit first, then for a containment hit, then for a
phrase hit, and only then scored.  `findBestMatch` itself applies the
three checks record-by-record in one pass, which changes the outcome when
an earlier record has only a lower-precedence hit — the two definitions
are compared by the C2 theorems. -/

/-- The keywords `findBestMatch` derives from the normalized question. -/
def questionKeywordsOf (nq : String) : List String :=
  ((jsSplitWs nq).filter (fun w => decide (2 < jsLength w))).filter
    (fun w => !(stopWords.contains w))

/-- A record passes one of the three per-record checks (exact equality,
containment either direction, two-word phrase occurrence). -/
def passesChecks (nq : String) (phrases : List String) (e : KBEntry) : Bool :=
  let neq := jsToLower e.q
  neq == nq || jsIncludes neq nq || jsIncludes nq neq ||
    phrases.any (fun ph => jsIncludes neq ph)

/-- One step of the best-score accumulator (`if (score > bestScore)`). -/
def scoreStep (kws : List String) (acc : Option KBEntry × Nat) (e : KBEntry) :
    Option KBEntry × Nat :=
  let score := entryScore kws (jsToLower e.q)
  if acc.2 < score then (some e, score) else acc

/-- The final `bestScore >= 8 && bestMatch ? bestMatch : null`. -/
def scoreThreshold (acc : Option KBEntry × Nat) : Option KBEntry :=
  if 8 ≤ acc.2 && acc.1.isSome then acc.1 else none

/-- The matcher as claim C2 words it: rule precedence across the whole
catalog — all records tried for exact equality first, then all for
containment, then all for a phrase hit, then keyword scoring. -/
def specRuleOrderedMatch (question : String) : Option KBEntry :=
  let nq := jsTrim (jsToLower question)
  if nq == "" then none
  else
    let kws := questionKeywordsOf nq
    let phrases := twoWordPhrases kws
    match KNOWLEDGE.find? (fun e => jsToLower e.q == nq) with
    | some e => some e
    | none =>
      match KNOWLEDGE.find? (fun e =>
          jsIncludes (jsToLower e.q) nq || jsIncludes nq (jsToLower e.q)) with
      | some e => some e
      | none =>
        match KNOWLEDGE.find? (fun e =>
            phrases.any (fun ph => jsIncludes (jsToLower e.q) ph)) with
        | some e => some e
        | none => scoreThreshold (KNOWLEDGE.foldl (scoreStep kws) (none, 0))

/-! ## Client progress store (`web/lib/quest.ts`)

`QuestState` is the localStorage-backed record.  The `unlocked`
`Record<string, string[]>` is modelled as a total function defaulting to
`[]` for untouched topics — exactly the effect of the
`if (!state.unlocked[topic]) state.unlocked[topic] = []` initialisation
and of the `state.unlocked["PDAs"] || []` reads.  `awardUnlock` and
`recordDailyCompletion` load the state, mutate it and save it; they are
modelled as state transformers (the record each returns to the caller is
a projection of the saved state). -/

structure QuestState where
  xp : Nat
  unlocked : String → List String
  badges : List String
  lastDaily : Option String
  streak : Option Nat

/-- `getRank(xp)` from `web/lib/quest.ts`. -/
def getRank (xp : Nat) : String :=
  if xp < 50 then "Wallet Warmer"
  else if xp < 100 then "Account Whisperer"
  else if xp < 200 then "PDA Prodigy"
  else "Anchor Adept"

/-- `Array.from(new Set(l))`: deduplicate keeping first occurrences. -/
def jsSetDedupAux : List String → List String → List String
  | [], acc => acc.reverse
  | x :: rest, acc =>
      if acc.contains x then jsSetDedupAux rest acc else jsSetDedupAux rest (x :: acc)

def jsSetDedup (l : List String) : List String :=
  jsSetDedupAux l []

/-- `checkBadges(state, topic?)` from `web/lib/quest.ts`. -/
def checkBadges (state : QuestState) (topic : Option String) : List String :=
  let pdaPart : List String :=
    if topic == some "PDAs" || topic.isNone then
      let pdaUnlocked := state.unlocked "PDAs"
      if 5 ≤ pdaUnlocked.length && !(state.badges.contains "PDA Master") then
        ["PDA Master"]
      else []
    else []
  let rentPart : List String :=
    if topic == some "Errors" || topic.isNone then
      let errorUnlocked := state.unlocked "Errors"
      let rentRelated :=
        errorUnlocked.filter (fun id => jsIncludes id "rent" || jsIncludes id "lamport")
      if 0 < rentRelated.length && !(state.badges.contains "Rent-Ready") then
        ["Rent-Ready"]
      else []
    else []
  pdaPart ++ rentPart

/-- `awardUnlock(topic, id)` from `web/lib/quest.ts`: append `id` to the
unlocked list of the topic and add 10 XP when it is new, then merge the badge
recomputation into the badge set. -/
def awardUnlock (state : QuestState) (topic : String) (id : String) : QuestState :=
  let current := state.unlocked topic
  let state1 :=
    if !(current.contains id) then
      { state with
          unlocked := fun t => if t == topic then current ++ [id] else state.unlocked t,
          xp := state.xp + 10 }
    else state
  let newBadges := checkBadges state1 (some topic)
  { state1 with badges := jsSetDedup (state1.badges ++ newBadges) }

/-- `todayISO.split("T")[0]`. -/
def jsDatePart (s : String) : String :=
  String.mk (s.data.takeWhile (fun c => c != 'T'))

def digitVal? (c : Char) : Option Nat :=
  if c.isDigit then some (c.toNat - 48) else none

/-- `new Date("YYYY-MM-DD")` parsing: a strict ISO calendar date parses to
UTC midnight of that day; anything else (wrong shape or out-of-range
components) is an Invalid Date, whose `getTime()` is NaN — modelled as
`none`. -/
def parseDateOnly (s : String) : Option (Int × Nat × Nat) :=
  match s.data with
  | [y1, y2, y3, y4, '-', m1, m2, '-', d1, d2] =>
      match digitVal? y1, digitVal? y2, digitVal? y3, digitVal? y4,
            digitVal? m1, digitVal? m2, digitVal? d1, digitVal? d2 with
      | some a, some b, some c, some d, some m, some n, some p, some q =>
          let year : Int := (1000 * a + 100 * b + 10 * c + d : Nat)
          let month := 10 * m + n
          let day := 10 * p + q
          if 1 ≤ month && month ≤ 12 && 1 ≤ day && day ≤ daysInMonth year month then
            some (year, month, day)
          else none
      | _, _, _, _, _, _, _, _ => none
  | _ => none

/-- `new Date(dateStr).getTime()` for a date-only string. -/
def jsDateParseMs (s : String) : Option Int :=
  (parseDateOnly s).map (fun ymd => 86400000 * daysFromCivil ymd.1 ymd.2.1 ymd.2.2)

/-- `Math.floor((new Date(today).getTime() - new Date(last).getTime()) / 86400000)`;
`none` is the NaN outcome (either date invalid), in which case both
`daysDiff === 1` and `daysDiff > 1` are false. -/
def daysDiff? (last today : String) : Option Int :=
  match jsDateParseMs last, jsDateParseMs today with
  | some a, some b => some ((b - a) / 86400000)
  | _, _ => none

/-- `recordDailyCompletion(todayISO)` from `web/lib/quest.ts`. -/
def recordDailyCompletion (state : QuestState) (todayISO : String) : QuestState :=
  let today := jsDatePart todayISO
  if state.lastDaily == some today then state
  else
    let streak0 := state.streak.getD 0
    let streak :=
      match state.lastDaily with
      | none => 1
      | some last =>
          match daysDiff? last today with
          | some d => if d = 1 then streak0 + 1 else if 1 < d then 1 else streak0
          | none => streak0
    let state1 :=
      { state with xp := state.xp + 5, lastDaily := some today, streak := some streak }
    if 3 ≤ streak && !(state1.badges.contains "Daily Learner") then
      { state1 with badges := state1.badges ++ ["Daily Learner"] }
    else state1

/-! ## POST /quiz/next (`server/routes/quiz.ts`)

The in-memory `sessions: Map<string, QuizSession>` is modelled as a total
function `String → Option QuizSession` (`Map.get`); `sessions.delete(id)`
sets that key to `none`. -/

inductive Outcome
  | correct
  | wrong
  deriving DecidableEq, Repr

/-- A stored quiz session (`QuizSession` in `server/routes/quiz.ts`). -/
structure QuizSession where
  questionId : String
  lastOutcome : Option Outcome
  paymentSettled : Bool
  timestamp : Nat
  deriving DecidableEq, Repr

/-- The JSON (plus status) `/quiz/next` answers with. -/
structure NextResponse where
  status : Nat
  error : Option String
  message : Option String
  ok : Option Bool
  nextUnlocked : Option Bool
  deriving DecidableEq, Repr

/-- The `POST /quiz/next` handler.  `sessionId?` is the `sessionId` body
field (`none` = absent; the empty string is falsy and also takes the 400
branch). -/
def quizNext (sessions : String → Option QuizSession) (sessionId? : Option String) :
    NextResponse × (String → Option QuizSession) :=
  match sessionId? with
  | none => (⟨400, some "sessionId is required", none, none, none⟩, sessions)
  | some sessionId =>
      if sessionId == "" then
        (⟨400, some "sessionId is required", none, none, none⟩, sessions)
      else
        match sessions sessionId with
        | none => (⟨404, some "Session not found", none, none, none⟩, sessions)
        | some session =>
            let canProceed :=
              session.lastOutcome == some .correct ||
                (session.lastOutcome == some .wrong && session.paymentSettled)
            if !canProceed then
              (⟨409, some "pending_payment", some "Payment required before proceeding",
                 none, none⟩, sessions)
            else
              (⟨200, none, none, some true, some true⟩,
               fun k => if k == sessionId then none else sessions k)

/-! ## x402 client (`web/lib/x402-solana.ts`)

`createPaymentTransaction` and `wrapFetchWithPaymentSolana` interleave
pure work with awaited effects (RPC reads, the blockhash fetch, wallet
signing, HTTP requests).  They are embedded as functions of an explicit
environment — the two HTTP responses, the wallet, and a `Chain` record
standing for the RPC connection — and additionally return the list of
effects they performed, in order:

* `.request b` — an HTTP request to the gated URL (`b` = carries the
  `X-Payment` header);
* `.rpcRead` — a read-only RPC (`getAccount`, `getMint`,
  `getSignaturesForAddress`/`getTransaction` during signature polling);
* `.buildTx` — `createPaymentTransaction` returned its transaction;
* `.blockhashFetch v` — `connection.getLatestBlockhash` returned `v`;
* `.sign bh` — `wallet.signTransaction` was invoked on a transaction
  whose `recentBlockhash` is `bh`;
* `.broadcast` — a transaction submission RPC.  No code path in
  `web/lib/x402-solana.ts` calls `sendTransaction`/`sendRawTransaction`,
  so no definition below ever emits it; the constructor exists so that
  the never-broadcasts guarantee is expressible over the trace.

Throwing is `Except.error` with the thrown message.  `BigInt` amounts are
`Nat` (`maxAmountRequired` is transported as a decimal string and parsed
with `BigInt(...)`; the claims quantify over the parsed value). -/

structure PaymentExtra where
  feePayer : Option String
  deriving DecidableEq, Repr

/-- `PaymentRequirements` from `web/lib/x402-solana.ts`. -/
structure PaymentRequirements where
  scheme : String
  network : String
  maxAmountRequired : Nat
  resource : String
  description : String
  payTo : String
  maxTimeoutSeconds : Nat
  asset : Option String
  extra : Option PaymentExtra
  deriving DecidableEq, Repr

structure TokenAccount where
  amount : Nat
  deriving DecidableEq, Repr

/-- The view of the chain held by the RPC connection.  `ata mint owner` is the
deterministic associated-token-address derivation
(`getAssociatedTokenAddress`, computed offline); `account` is
`getAccount` (`none` = the account does not exist and the call throws);
`mintDecimals` is `getMint(...).decimals` (`none` = the mint account does
not exist and the call throws); `latestBlockhash`/`lastValidBlockHeight`
are what `getLatestBlockhash` returns. -/
structure Chain where
  ata : String → String → String
  account : String → Option TokenAccount
  mintDecimals : String → Option Nat
  latestBlockhash : String
  lastValidBlockHeight : Nat

/-- The wallet context: `publicKey`, whether `signTransaction` exists, and
whether the signing prompt resolves (`signError = some msg` models the
user rejecting / the wallet failing, which rejects the awaited promise). -/
structure Wallet where
  publicKey : Option String
  canSign : Bool
  signError : Option String

inductive Instruction
  | setComputeUnitLimit (units : Nat)
  | setComputeUnitPrice (microLamports : Nat)
  | createAssociatedTokenAccount (payer ata owner mint : String)
  | transferChecked (source mint destination authority : String) (amount decimals : Nat)
  deriving DecidableEq, Repr

structure SolTransaction where
  instructions : List Instruction
  feePayer : Option String
  recentBlockhash : Option String
  lastValidBlockHeight : Option Nat
  deriving DecidableEq, Repr

inductive Event
  | request (withPaymentHeader : Bool)
  | rpcRead
  | buildTx
  | blockhashFetch (value : String)
  | sign (txBlockhash : Option String)
  | broadcast
  deriving DecidableEq, Repr

def Event.isRequestEv : Event → Bool
  | .request _ => true
  | _ => false

def Event.isBroadcastEv : Event → Bool
  | .broadcast => true
  | _ => false

def Event.isBuildEv : Event → Bool
  | .buildTx => true
  | _ => false

/-- The build / blockhash-fetch / sign events, whose relative order claim
C4 is about. -/
def Event.isCoreEv : Event → Bool
  | .buildTx => true
  | .blockhashFetch _ => true
  | .sign _ => true
  | _ => false

/-- `createPaymentTransaction(requirements, wallet, connection)` from
`web/lib/x402-solana.ts` (lines 79–210), together with the RPC reads it
performs.  Notes kept from the source: the `!requirements.asset` and
`!requirements.extra?.feePayer` guards treat the empty string like an
absent field (JavaScript falsiness); the insufficient-balance message
carries the two amounts (the parenthesized floating-point token rendering
of the source template is part of the same single message and is not
reproduced digit-for-digit); a missing mint makes the `getMint` library
call throw, modelled with a `"Mint not found: "` message standing for the
own error of the library.  The blockhash is deliberately NOT set here — the
source comment defers it to just before signing — and `feePayer` is set
to `extra.feePayer`. -/
def createPaymentTransaction (requirements : PaymentRequirements) (wallet : Wallet)
    (chain : Chain) : Except String SolTransaction × List Event :=
  match wallet.publicKey with
  | none => (.error "Wallet not connected", [])
  | some walletPublicKey =>
      match requirements.asset with
      | none => (.error "Payment requirements missing asset (token mint address)", [])
      | some asset =>
          if asset == "" then
            (.error "Payment requirements missing asset (token mint address)", [])
          else
            let recipientPubkey := requirements.payTo
            let requiredMint := asset
            let amount := requirements.maxAmountRequired
            let senderTokenAddress := chain.ata requiredMint walletPublicKey
            match chain.account senderTokenAddress with
            | none =>
                (.error ("Token account not found for required mint: " ++ requiredMint ++
                  ". Please ensure you have this token in your wallet. " ++
                  "You may need to receive some tokens first."), [.rpcRead])
            | some senderAccount =>
                let senderBalance := senderAccount.amount
                if senderBalance < amount then
                  (.error ("Insufficient balance. Required: " ++ toString amount ++
                    ", Available: " ++ toString senderBalance), [.rpcRead])
                else
                  let tokenMint := requiredMint
                  let recipientTokenAddress := chain.ata tokenMint recipientPubkey
                  let recipientTokenAccountExists :=
                    (chain.account recipientTokenAddress).isSome
                  let instrsBudget : List Instruction :=
                    [.setComputeUnitLimit 200000, .setComputeUnitPrice 1]
                  let instrsWithAta :=
                    if !recipientTokenAccountExists then
                      instrsBudget ++
                        [.createAssociatedTokenAccount walletPublicKey recipientTokenAddress
                          recipientPubkey tokenMint]
                    else instrsBudget
                  match chain.mintDecimals tokenMint with
                  | none =>
                      (.error ("Mint not found: " ++ tokenMint),
                       [.rpcRead, .rpcRead, .rpcRead])
                  | some decimals =>
                      let instructions := instrsWithAta ++
                        [.transferChecked senderTokenAddress tokenMint recipientTokenAddress
                          walletPublicKey amount decimals]
                      let expectedInstructions := if recipientTokenAccountExists then 3 else 4
                      if instructions.length ≠ expectedInstructions then
                        (.error ("Transaction must have " ++ toString expectedInstructions ++
                          " instructions for exact scheme, but has " ++
                          toString instructions.length), [.rpcRead, .rpcRead, .rpcRead])
                      else
                        match requirements.extra with
                        | none =>
                            (.error "Payment requirements missing extra.feePayer (facilitator address)",
                             [.rpcRead, .rpcRead, .rpcRead])
                        | some extra =>
                            match extra.feePayer with
                            | none =>
                                (.error "Payment requirements missing extra.feePayer (facilitator address)",
                                 [.rpcRead, .rpcRead, .rpcRead])
                            | some feePayer =>
                                if feePayer == "" then
                                  (.error "Payment requirements missing extra.feePayer (facilitator address)",
                                   [.rpcRead, .rpcRead, .rpcRead])
                                else
                                  (.ok { instructions := instructions,
                                         feePayer := some feePayer,
                                         recentBlockhash := none,
                                         lastValidBlockHeight := none },
                                   [.rpcRead, .rpcRead, .rpcRead])

/-- The 402 body as `wrapFetchWithPaymentSolana` reads it
(`data.accepts?.[0] || data.paymentRequirements`). -/
structure ParsedBody402 where
  accepts : List PaymentRequirements
  paymentRequirements : Option PaymentRequirements
  deriving DecidableEq, Repr

/-- An HTTP response as the orchestrator inspects it: status; the body
parsed as JSON when read for payment requirements (`none` = parse
failure); whether an `X-Payment-Response` header is present and the
`transaction` field it decodes to (when parseable); the `error`
field of the body when re-read as an error object; and the `X-Transaction-Signature`
header the orchestrator itself may attach before handing the response
back. -/
structure HttpResponse where
  status : Nat
  body402 : Option ParsedBody402
  hasPaymentResponseHeader : Bool
  paymentResponseTx : Option String
  errorField : Option String
  txSigHeader : Option String
  deriving DecidableEq, Repr

/-- The environment of one gated call: what the network and the user
do.  `firstResponse` answers the initial request, `retryResponse` the
retried one; `pollReads` is how many read-only RPCs the
`findTransactionSignature` polling loop performs and `pollResult` what it
returns (that helper only calls `getSignaturesForAddress` and
`getTransaction`). -/
structure FetchEnv where
  firstResponse : HttpResponse
  retryResponse : HttpResponse
  wallet : Wallet
  chain : Chain
  pollReads : Nat
  pollResult : Option String

/-- `data.accepts?.[0] || data.paymentRequirements`. -/
def requirementsOf (data : ParsedBody402) : Option PaymentRequirements :=
  data.accepts.head?.orElse (fun _ => data.paymentRequirements)

/-- The error thrown when the retried request still returns 402
(`errorMsg = errorData.error || "Unknown error"`, with the special
simulation-failure wording when the facilitator error mentions
simulation). -/
def verificationFailureMsg (errorField : Option String) : String :=
  let errorMsg := errorField.getD "Unknown error"
  if jsIncludes errorMsg "simulation_failed" || jsIncludes errorMsg "transaction_simulation" then
    "Transaction simulation failed: " ++ errorMsg ++
      "\n\nPossible causes:\n1. Blockhash is stale (should be fixed with fresh blockhash)\n" ++
      "2. Transaction structure doesn\x27t match facilitator expectations\n" ++
      "3. Required accounts don\x27t exist or are invalid\n4. Network/RPC issues\n\n" ++
      "Try again - the fresh blockhash should help."
  else
    "Payment verification failed: " ++ errorMsg

/-- `wrapFetchWithPaymentSolana` from `web/lib/x402-solana.ts`
(lines 248–426): issue the request; on 402 parse the requirements, check
`extra.feePayer` and the wallet, build the transaction, fetch a fresh
blockhash, sign, retry once with the `X-Payment` header; on a 200 retry
recover a settlement signature (header first, then read-only polling) and
hand back the re-created response; on a 402 retry throw the
verification-failure error.  A first response that is neither 402 nor 200
is re-created so its body stays readable (observably the identity here)
and returned. -/
def wrapFetchWithPaymentSolana (env : FetchEnv) : Except String HttpResponse × List Event :=
  let response := env.firstResponse
  let trace0 : List Event := [.request false]
  if response.status = 402 then
    match response.body402 with
    | none => (.error "Failed to parse 402 response as JSON", trace0)
    | some data =>
        match requirementsOf data with
        | none => (.error "Invalid 402 response: missing payment requirements", trace0)
        | some requirements =>
            if jsStrFalsy (requirements.extra.bind PaymentExtra.feePayer) then
              (.error "Payment requirements missing extra.feePayer (facilitator address required)",
               trace0)
            else if env.wallet.publicKey.isNone || !env.wallet.canSign then
              (.error "Wallet not connected or does not support signing", trace0)
            else
              let built := createPaymentTransaction requirements env.wallet env.chain
              match built.1 with
              | .error e => (.error e, trace0 ++ built.2)
              | .ok builtTx =>
                  let trace1 := trace0 ++ built.2 ++ [.buildTx]
                  let freshBlockhash := env.chain.latestBlockhash
                  let trace2 := trace1 ++ [.blockhashFetch freshBlockhash]
                  let transaction := { builtTx with
                    recentBlockhash := some freshBlockhash,
                    lastValidBlockHeight := some env.chain.lastValidBlockHeight }
                  let trace3 := trace2 ++ [.sign transaction.recentBlockhash]
                  match env.wallet.signError with
                  | some msg => (.error msg, trace3)
                  | none =>
                      let trace4 := trace3 ++ [.request true]
                      let retry := env.retryResponse
                      if retry.status = 200 then
                        let txSigFromHeader :=
                          if retry.hasPaymentResponseHeader then retry.paymentResponseTx
                          else none
                        match txSigFromHeader with
                        | some sig => (.ok { retry with txSigHeader := some sig }, trace4)
                        | none =>
                            if env.wallet.publicKey.isSome && requirements.payTo != "" then
                              let trace5 := trace4 ++ List.replicate env.pollReads .rpcRead
                              match env.pollResult with
                              | some sig => (.ok { retry with txSigHeader := some sig }, trace5)
                              | none => (.ok retry, trace5)
                            else (.ok retry, trace4)
                      else if retry.status = 402 then
                        (.error (verificationFailureMsg retry.errorField), trace4)
                      else (.ok retry, trace4)
  else (.ok response, trace0)


/-! ## Concrete fixtures

Closed instances used by the witness theorems: a well-formed
payment-requirements record, a chain on which the sender alice holds
5000 atoms of the USDC mint while the recipient bob has no associated
token account yet, a connected signing wallet, a 402 first response
carrying the requirements, and a retry that still answers 402. -/
def reqW : PaymentRequirements :=
  { scheme := "exact", network := "solana-devnet", maxAmountRequired := 1000,
    resource := "http://localhost:4021/unlock", description := "Unlock content",
    payTo := "bob", maxTimeoutSeconds := 60, asset := some "USDC",
    extra := some ⟨some "facilitator"⟩ }

def chainW : Chain :=
  { ata := fun mint owner => mint ++ "/" ++ owner,
    account := fun addr => if addr = "USDC/alice" then some ⟨5000⟩ else none,
    mintDecimals := fun m => if m = "USDC" then some 6 else none,
    latestBlockhash := "blockhash-1", lastValidBlockHeight := 12345 }

def walletW : Wallet := { publicKey := some "alice", canSign := true, signError := none }

def dataW : ParsedBody402 := { accepts := [reqW], paymentRequirements := none }

def envW : FetchEnv :=
  { firstResponse :=
      { status := 402, body402 := some dataW, hasPaymentResponseHeader := false,
        paymentResponseTx := none, errorField := none, txSigHeader := none },
    retryResponse :=
      { status := 402, body402 := none, hasPaymentResponseHeader := false,
        paymentResponseTx := none, errorField := none, txSigHeader := none },
    wallet := walletW, chain := chainW, pollReads := 0, pollResult := none }

def txW : SolTransaction :=
  { instructions := [.setComputeUnitLimit 200000, .setComputeUnitPrice 1,
      .createAssociatedTokenAccount "alice" "USDC/bob" "bob" "USDC",
      .transferChecked "USDC/alice" "USDC" "USDC/bob" "alice" 1000 6],
    feePayer := some "facilitator", recentBlockhash := none, lastValidBlockHeight := none }

def questW : QuestState :=
  { xp := 0, unlocked := fun _ => [], badges := [], lastDaily := none, streak := some 0 }

def questW2 : QuestState :=
  { xp := 20, unlocked := fun _ => [], badges := [], lastDaily := some "2024-01-01",
    streak := some 3 }

def sessionsW : String → Option QuizSession :=
  fun k => if k = "s1" then some ⟨"q1", some .wrong, false, 5⟩ else none


/-! ## Theorems -/

theorem daysFromCivil_epoch : daysFromCivil 1970 1 1 = 0 := by decide

theorem daysFromCivil_jan1_2024 : daysFromCivil 2024 1 1 = 19723 := by decide

theorem daysFromCivil_jan1 (y : Int) :
    daysFromCivil y 1 1 = daysFromCivil (y - 1) 12 31 + 1 := by
  unfold daysFromCivil
  norm_num
  omega

theorem timeOfDayMs_bounds (t : DateTime) (h : t.Valid) :
    0 ≤ timeOfDayMs t ∧ timeOfDayMs t < 86400000 := by
  obtain ⟨_, _, _, _, _, hh, hm, hs, hms⟩ := h
  unfold timeOfDayMs
  omega

theorem dayOfYearJs_eq (t : DateTime) (h : t.Valid) :
    (epochMillis t - epochMillis ⟨t.year - 1, 12, 31, 0, 0, 0, 0⟩) / 86400000 = dayOfYear t := by
  have hb := timeOfDayMs_bounds t h
  unfold timeOfDayMs at hb
  unfold epochMillis dayOfYear timeOfDayMs
  dsimp only
  norm_num
  omega

theorem daysFromCivil_ge_jan1 (y m d : Int) (hm1 : 1 ≤ m) (hm12 : m ≤ 12) (hd : 1 ≤ d) :
    daysFromCivil y 1 1 ≤ daysFromCivil y m d := by
  unfold daysFromCivil
  rcases le_or_lt m 2 with hm2 | hm2
  · rw [if_pos hm2]
    norm_num
    omega
  · rw [if_neg (not_le.mpr hm2)]
    norm_num
    omega

theorem dayOfYear_pos (t : DateTime) (h : t.Valid) : 1 ≤ dayOfYear t := by
  obtain ⟨hy, hm1, hm12, hd1, hd2, _, _, _, _⟩ := h
  have h1 := daysFromCivil_ge_jan1 t.year t.month t.day (by exact_mod_cast hm1)
    (by exact_mod_cast hm12) (by exact_mod_cast hd1)
  have h2 := daysFromCivil_jan1 t.year
  unfold dayOfYear
  omega

theorem dailyPick_characterization (t : DateTime) (h : t.Valid) :
    dailyPick t =
      (KNOWLEDGE.get? ((dayOfYear t).tmod (KNOWLEDGE.length : Int)).toNat).map
        (fun e => ⟨e.id, e.q, e.topic⟩) := by
  have hpos := dayOfYear_pos t h
  have hmod : 0 ≤ (dayOfYear t).tmod (KNOWLEDGE.length : Int) := by
    apply Int.tmod_nonneg
    omega
  unfold dailyPick
  rw [if_neg (by decide), dayOfYearJs_eq t h, if_neg (by omega)]

/-- C6: dailyPick is deterministic per UTC date — two valid timestamps on
the same calendar date yield the same entry; the entry is the knowledge
base at index day-of-year modulo the catalog size; and the picks over 41
consecutive days (Jan 1 through Feb 10, 2024) cover every record, so they
cycle through the whole catalog as the day-of-year advances. -/
theorem claim_C6_dailyPick :
    (∀ t1 t2 : DateTime, t1.Valid → t2.Valid → t1.year = t2.year → t1.month = t2.month →
       t1.day = t2.day → dailyPick t1 = dailyPick t2) ∧
    (∀ t : DateTime, t.Valid →
       dailyPick t =
         (KNOWLEDGE.get? ((dayOfYear t).tmod (KNOWLEDGE.length : Int)).toNat).map
           (fun e => ⟨e.id, e.q, e.topic⟩)) ∧
    (∀ k : Fin KNOWLEDGE.length,
       (dateForIdx k).Valid ∧
       dailyPick (dateForIdx k) = (KNOWLEDGE.get? k).map (fun e => ⟨e.id, e.q, e.topic⟩)) := by
  refine ⟨?_, dailyPick_characterization, ?_⟩
  · intro t1 t2 h1 h2 hy hm hd
    rw [dailyPick_characterization t1 h1, dailyPick_characterization t2 h2]
    unfold dayOfYear
    rw [hy, hm, hd]
  · decide

theorem claim_C6_dailyPick_witness :
    DateTime.Valid ⟨2024, 1, 1, 0, 0, 0, 0⟩ ∧ DateTime.Valid ⟨2024, 1, 1, 23, 59, 59, 999⟩ ∧
    dailyPick ⟨2024, 1, 1, 0, 0, 0, 0⟩ = dailyPick ⟨2024, 1, 1, 23, 59, 59, 999⟩ ∧
    dailyPick ⟨2024, 1, 1, 0, 0, 0, 0⟩ = some ⟨"sb-program", "What is a Solana program?", "Solana Basics"⟩ := by
  refine ⟨by decide, by decide, ?_, by decide⟩
  exact claim_C6_dailyPick.1 _ _ (by decide) (by decide) rfl rfl rfl

/-- C5: for a stored session, POST /quiz/next answers 200 with ok and
nextUnlocked and deletes exactly that session when lastOutcome is correct
or when it is wrong with the payment settled; in every other case it
answers 409 with error pending_payment and leaves the store untouched. -/
theorem claim_C5_quizNext (sessions : String → Option QuizSession) (sid : String)
    (session : QuizSession) (hsid : sid ≠ "") (hfound : sessions sid = some session) :
    ((session.lastOutcome = some .correct ∨
        (session.lastOutcome = some .wrong ∧ session.paymentSettled = true)) →
       (quizNext sessions (some sid)).1 = ⟨200, none, none, some true, some true⟩ ∧
       (quizNext sessions (some sid)).2 sid = none ∧
       (∀ k, k ≠ sid → (quizNext sessions (some sid)).2 k = sessions k)) ∧
    (¬(session.lastOutcome = some .correct ∨
        (session.lastOutcome = some .wrong ∧ session.paymentSettled = true)) →
       (quizNext sessions (some sid)).1 =
         ⟨409, some "pending_payment", some "Payment required before proceeding", none, none⟩ ∧
       (quizNext sessions (some sid)).2 = sessions) := by
  have hs : (sid == "") = false := by
    simp [hsid]
  rcases session with ⟨qid, lo, ps, ts⟩
  rcases lo with _ | o
  · simp [quizNext, hs, hfound]
  · rcases o <;> rcases ps <;>
      simp [quizNext, hs, hfound] <;>
      intro k hk <;> simp [hk]

/-- C8: awardUnlock is idempotent in XP and unlock membership — on any
state whose unlocked list satisfies the at-most-once data invariant, the
first call adds 10 XP exactly when the id is new, a second call with the
same topic and id adds nothing, and afterwards the id occurs exactly once
in the unlocked list of that topic. -/
theorem claim_C8_awardUnlock (s : QuestState) (topic id : String)
    (hdup : (s.unlocked topic).count id ≤ 1) :
    ((awardUnlock s topic id).xp =
       if (s.unlocked topic).contains id then s.xp else s.xp + 10) ∧
    (awardUnlock (awardUnlock s topic id) topic id).xp = (awardUnlock s topic id).xp ∧
    ((awardUnlock (awardUnlock s topic id) topic id).unlocked topic).count id = 1 := by
  by_cases hc : (s.unlocked topic).contains id
  · have hmem : id ∈ s.unlocked topic := by simpa using hc
    have hpos : 0 < (s.unlocked topic).count id := List.count_pos_iff.mpr hmem
    refine ⟨by simp [awardUnlock, hmem], by simp [awardUnlock, hmem], ?_⟩
    simp [awardUnlock, hmem]
    omega
  · have hmem : id ∉ s.unlocked topic := by simpa using hc
    have hzero : (s.unlocked topic).count id = 0 := by
      simpa using List.count_eq_zero.mpr hmem
    refine ⟨by simp [awardUnlock, hmem], ?_, ?_⟩
    · simp [awardUnlock, hmem]
    · simp [awardUnlock, hmem, List.count_append, hzero]

/-- C9: recordDailyCompletion is a no-op (state returned unchanged) when
the stored lastDaily equals the UTC date of the call; otherwise it adds
5 XP, sets lastDaily to that date, and updates the streak by day
difference — no stored date gives streak 1, a difference of exactly one
day increments the streak, and a gap of more than one day resets it
to 1. -/
theorem claim_C9_recordDaily (s : QuestState) (todayISO : String) :
    (s.lastDaily = some (jsDatePart todayISO) → recordDailyCompletion s todayISO = s) ∧
    (s.lastDaily ≠ some (jsDatePart todayISO) →
       (recordDailyCompletion s todayISO).xp = s.xp + 5 ∧
       (recordDailyCompletion s todayISO).lastDaily = some (jsDatePart todayISO) ∧
       (s.lastDaily = none → (recordDailyCompletion s todayISO).streak = some 1) ∧
       (∀ last, s.lastDaily = some last →
          daysDiff? last (jsDatePart todayISO) = some 1 →
          (recordDailyCompletion s todayISO).streak = some (s.streak.getD 0 + 1)) ∧
       (∀ last d, s.lastDaily = some last →
          daysDiff? last (jsDatePart todayISO) = some d → 1 < d →
          (recordDailyCompletion s todayISO).streak = some 1)) := by
  constructor
  · intro h
    simp [recordDailyCompletion, h]
  · intro h
    have hb : (s.lastDaily == some (jsDatePart todayISO)) = false := by
      simp [h]
    refine ⟨?_, ?_, ?_, ?_, ?_⟩
    · simp only [recordDailyCompletion, hb, Bool.false_eq_true, if_false]
      split <;> rfl
    · simp only [recordDailyCompletion, hb, Bool.false_eq_true, if_false]
      split <;> rfl
    · intro hl
      simp only [recordDailyCompletion, hb, Bool.false_eq_true, if_false]
      simp only [hl]
      split <;> rfl
    · intro last hl hd
      simp only [recordDailyCompletion, hb, Bool.false_eq_true, if_false]
      simp only [hl, hd]
      norm_num
      split <;> rfl
    · intro last d hl hd hd1
      have hne : ¬(d = 1) := by omega
      simp only [recordDailyCompletion, hb, Bool.false_eq_true, if_false]
      simp only [hl, hd, if_neg hne, if_pos hd1]
      split <;> rfl

/-- C1: for well-formed requirements (asset and extra.feePayer present and
nonempty, wallet connected, sender associated token account present with
balance at least maxAmountRequired, mint readable), createPaymentTransaction
returns a transaction whose instructions are exactly, in order: set
compute-unit limit, set compute-unit price, optionally create the
recipient associated token account, then a checked token transfer; the
count is 4 exactly when the recipient account does not exist and 3
otherwise (so the self-check on the count passed), and the fee payer is
the facilitator address from extra.feePayer — not the user key whenever
the two differ. -/
theorem claim_C1_createPaymentTransaction
    (requirements : PaymentRequirements) (wallet : Wallet) (chain : Chain)
    (pk mint feePayer : String) (ex : PaymentExtra) (acct : TokenAccount) (decimals : Nat)
    (hpk : wallet.publicKey = some pk)
    (hasset : requirements.asset = some mint) (hmint : mint ≠ "")
    (hex : requirements.extra = some ex) (hfp : ex.feePayer = some feePayer)
    (hfp2 : feePayer ≠ "")
    (hacct : chain.account (chain.ata mint pk) = some acct)
    (hbal : requirements.maxAmountRequired ≤ acct.amount)
    (hdec : chain.mintDecimals mint = some decimals) :
    ∃ tx : SolTransaction,
      (createPaymentTransaction requirements wallet chain).1 = .ok tx ∧
      tx.instructions =
        [Instruction.setComputeUnitLimit 200000, Instruction.setComputeUnitPrice 1] ++
          (if (chain.account (chain.ata mint requirements.payTo)).isSome then []
           else [Instruction.createAssociatedTokenAccount pk (chain.ata mint requirements.payTo)
                   requirements.payTo mint]) ++
          [Instruction.transferChecked (chain.ata mint pk) mint (chain.ata mint requirements.payTo)
             pk requirements.maxAmountRequired decimals] ∧
      (tx.instructions.length = 4 ↔
        (chain.account (chain.ata mint requirements.payTo)).isSome = false) ∧
      (tx.instructions.length = 3 ∨ tx.instructions.length = 4) ∧
      tx.feePayer = some feePayer ∧
      (feePayer ≠ pk → tx.feePayer ≠ some pk) := by
  have hm2 : (mint == "") = false := by simp [hmint]
  have hf2 : (feePayer == "") = false := by simp [hfp2]
  have hnb : ¬(acct.amount < requirements.maxAmountRequired) := by omega
  cases hata : (chain.account (chain.ata mint requirements.payTo)).isSome with
  | true =>
      refine ⟨⟨[Instruction.setComputeUnitLimit 200000, Instruction.setComputeUnitPrice 1,
                Instruction.transferChecked (chain.ata mint pk) mint
                  (chain.ata mint requirements.payTo) pk requirements.maxAmountRequired decimals],
               some feePayer, none, none⟩, ?_, by simp, by simp, by simp, rfl,
             fun hne => by simp [hne]⟩
      unfold createPaymentTransaction
      simp only [hpk, hasset, hm2, Bool.false_eq_true, if_false, hacct, if_neg hnb, hata,
        hdec, hex, hfp, hf2]
      norm_num
  | false =>
      refine ⟨⟨[Instruction.setComputeUnitLimit 200000, Instruction.setComputeUnitPrice 1,
                Instruction.createAssociatedTokenAccount pk (chain.ata mint requirements.payTo)
                  requirements.payTo mint,
                Instruction.transferChecked (chain.ata mint pk) mint
                  (chain.ata mint requirements.payTo) pk requirements.maxAmountRequired decimals],
               some feePayer, none, none⟩, ?_, by simp, by simp, by simp, rfl,
             fun hne => by simp [hne]⟩
      unfold createPaymentTransaction
      simp only [hpk, hasset, hm2, Bool.false_eq_true, if_false, hacct, if_neg hnb, hata,
        hdec, hex, hfp, hf2]
      norm_num


theorem createPaymentTransaction_events_shape (r : PaymentRequirements) (w : Wallet)
    (c : Chain) :
    (createPaymentTransaction r w c).2 = [] ∨
    (createPaymentTransaction r w c).2 = [Event.rpcRead] ∨
    (createPaymentTransaction r w c).2 = [Event.rpcRead, Event.rpcRead, Event.rpcRead] := by
  unfold createPaymentTransaction
  dsimp only
  repeat' split
  all_goals simp

theorem createPaymentTransaction_events_rpcRead (r : PaymentRequirements) (w : Wallet)
    (c : Chain) : ∀ ev ∈ (createPaymentTransaction r w c).2, ev = Event.rpcRead := by
  intro ev hev
  rcases createPaymentTransaction_events_shape r w c with h | h | h <;> rw [h] at hev
  · simp at hev
  · simpa using hev
  · simpa using hev

theorem filter_eq_nil_of_all_rpcRead (p : Event → Bool) (hp : p Event.rpcRead = false)
    (l : List Event) (h : ∀ ev ∈ l, ev = Event.rpcRead) : l.filter p = [] := by
  induction l with
  | nil => rfl
  | cons a t ih =>
      have ha := h a (by simp)
      subst ha
      simp only [List.filter_cons, hp, Bool.false_eq_true, if_false]
      exact ih (fun ev hev => h ev (by simp [hev]))

/-- C7: createPaymentTransaction checks its preconditions with fatal,
specific errors and produces no transaction when any fails — wallet not
connected, missing (or empty) asset, sender token account missing for the
required mint, balance strictly below maxAmountRequired, and missing (or
empty) extra.feePayer each yield their own error; and when the builder
throws inside the orchestrator the error is surfaced without any retry:
only the one original request was issued. -/
theorem claim_C7_builder_errors :
    (∀ (r : PaymentRequirements) (w : Wallet) (c : Chain),
       w.publicKey = none →
       (createPaymentTransaction r w c).1 = .error "Wallet not connected") ∧
    (∀ (r : PaymentRequirements) (w : Wallet) (c : Chain) (pk : String),
       w.publicKey = some pk → jsStrFalsy r.asset = true →
       (createPaymentTransaction r w c).1 =
         .error "Payment requirements missing asset (token mint address)") ∧
    (∀ (r : PaymentRequirements) (w : Wallet) (c : Chain) (pk mint : String),
       w.publicKey = some pk → r.asset = some mint → mint ≠ "" →
       c.account (c.ata mint pk) = none →
       (createPaymentTransaction r w c).1 =
         .error ("Token account not found for required mint: " ++ mint ++
           ". Please ensure you have this token in your wallet. " ++
           "You may need to receive some tokens first.")) ∧
    (∀ (r : PaymentRequirements) (w : Wallet) (c : Chain) (pk mint : String)
       (acct : TokenAccount),
       w.publicKey = some pk → r.asset = some mint → mint ≠ "" →
       c.account (c.ata mint pk) = some acct → acct.amount < r.maxAmountRequired →
       (createPaymentTransaction r w c).1 =
         .error ("Insufficient balance. Required: " ++ toString r.maxAmountRequired ++
           ", Available: " ++ toString acct.amount)) ∧
    (∀ (r : PaymentRequirements) (w : Wallet) (c : Chain) (pk mint : String)
       (acct : TokenAccount) (decimals : Nat),
       w.publicKey = some pk → r.asset = some mint → mint ≠ "" →
       c.account (c.ata mint pk) = some acct → r.maxAmountRequired ≤ acct.amount →
       c.mintDecimals mint = some decimals →
       jsStrFalsy (r.extra.bind PaymentExtra.feePayer) = true →
       (createPaymentTransaction r w c).1 =
         .error "Payment requirements missing extra.feePayer (facilitator address)") ∧
    (∀ (env : FetchEnv) (data : ParsedBody402) (req : PaymentRequirements) (e : String),
       env.firstResponse.status = 402 →
       env.firstResponse.body402 = some data →
       requirementsOf data = some req →
       jsStrFalsy (req.extra.bind PaymentExtra.feePayer) = false →
       env.wallet.publicKey.isSome = true → env.wallet.canSign = true →
       (createPaymentTransaction req env.wallet env.chain).1 = .error e →
       (wrapFetchWithPaymentSolana env).1 = .error e ∧
       (wrapFetchWithPaymentSolana env).2.filter Event.isRequestEv = [.request false]) := by
  refine ⟨?_, ?_, ?_, ?_, ?_, ?_⟩
  · intro r w c h
    simp [createPaymentTransaction, h]
  · intro r w c pk h ha
    cases hasset : r.asset with
    | none => simp [createPaymentTransaction, h, hasset]
    | some a =>
        have : a = "" := by simpa [jsStrFalsy, hasset, String.isEmpty_iff] using ha
        subst this
        simp [createPaymentTransaction, h, hasset]
  · intro r w c pk mint h ha hm hacct
    have hm2 : (mint == "") = false := by simp [hm]
    simp [createPaymentTransaction, h, ha, hm2, hacct]
  · intro r w c pk mint acct h ha hm hacct hbal
    have hm2 : (mint == "") = false := by simp [hm]
    simp [createPaymentTransaction, h, ha, hm2, hacct, hbal]
  · intro r w c pk mint acct decimals h ha hm hacct hbal hdec hfp
    have hm2 : (mint == "") = false := by simp [hm]
    have hnb : ¬(acct.amount < r.maxAmountRequired) := by omega
    cases hex : r.extra with
    | none =>
        cases hata : (c.account (c.ata mint r.payTo)).isSome <;>
          simp [createPaymentTransaction, h, ha, hm2, hacct, hnb, hdec, hex, hata]
    | some ex =>
        cases hfp2 : ex.feePayer with
        | none =>
            cases hata : (c.account (c.ata mint r.payTo)).isSome <;>
              simp [createPaymentTransaction, h, ha, hm2, hacct, hnb, hdec, hex, hfp2, hata]
        | some fp =>
            have hfpe : fp = "" := by
              simpa [jsStrFalsy, hex, hfp2, String.isEmpty_iff] using hfp
            subst hfpe
            cases hata : (c.account (c.ata mint r.payTo)).isSome <;>
              simp [createPaymentTransaction, h, ha, hm2, hacct, hnb, hdec, hex, hfp2, hata]
  · intro env data req e h1 h2 h3 h4 h5 h6 h7
    unfold wrapFetchWithPaymentSolana
    simp only [h1, h2, h3, h4, h5, h6, h7, if_pos rfl, Bool.false_eq_true, if_false,
      Bool.not_true, Bool.or_false, Option.isSome]
    obtain ⟨pk, hpk⟩ := Option.isSome_iff_exists.mp h5
    have hnil : ((createPaymentTransaction req env.wallet env.chain).2).filter
        Event.isRequestEv = [] :=
      filter_eq_nil_of_all_rpcRead _ rfl _
        (createPaymentTransaction_events_rpcRead req env.wallet env.chain)
    constructor
    · simp [hpk]
    · simp [hpk, List.filter_append, hnil, Event.isRequestEv]

theorem replicate_rpcRead_all (n : Nat) :
    ∀ ev ∈ List.replicate n Event.rpcRead, ev = Event.rpcRead := by
  intro ev hev
  exact List.eq_of_mem_replicate hev

theorem wrapFetch_cases (env : FetchEnv) :
    (env.firstResponse.status ≠ 402 ∧
       wrapFetchWithPaymentSolana env = (.ok env.firstResponse, [.request false])) ∨
    (env.firstResponse.status = 402 ∧ ∃ msg,
       wrapFetchWithPaymentSolana env = (.error msg, [.request false])) ∨
    (env.firstResponse.status = 402 ∧ ∃ msg pre,
       (∀ ev ∈ pre, ev = Event.rpcRead) ∧
       wrapFetchWithPaymentSolana env = (.error msg, [.request false] ++ pre)) ∨
    (env.firstResponse.status = 402 ∧ ∃ msg pre,
       (∀ ev ∈ pre, ev = Event.rpcRead) ∧
       wrapFetchWithPaymentSolana env =
         (.error msg, [.request false] ++ pre ++
           [.buildTx, .blockhashFetch env.chain.latestBlockhash,
            .sign (some env.chain.latestBlockhash)])) ∨
    (env.firstResponse.status = 402 ∧ ∃ pre post res,
       (∀ ev ∈ pre, ev = Event.rpcRead) ∧ (∀ ev ∈ post, ev = Event.rpcRead) ∧
       (wrapFetchWithPaymentSolana env).2 =
         [.request false] ++ pre ++
           [.buildTx, .blockhashFetch env.chain.latestBlockhash,
            .sign (some env.chain.latestBlockhash)] ++ [.request true] ++ post ∧
       (wrapFetchWithPaymentSolana env).1 = res ∧
       (env.retryResponse.status = 402 →
          res = .error (verificationFailureMsg env.retryResponse.errorField))) := by
  by_cases h402 : env.firstResponse.status = 402
  · unfold wrapFetchWithPaymentSolana
    dsimp only
    rw [if_pos h402]
    cases hbody : env.firstResponse.body402 with
    | none => exact Or.inr (Or.inl ⟨h402, _, rfl⟩)
    | some data =>
        dsimp only
        cases hreq : requirementsOf data with
        | none => exact Or.inr (Or.inl ⟨h402, _, rfl⟩)
        | some req =>
            dsimp only
            by_cases hfp : jsStrFalsy (req.extra.bind PaymentExtra.feePayer) = true
            · rw [if_pos hfp]
              exact Or.inr (Or.inl ⟨h402, _, rfl⟩)
            · rw [if_neg hfp]
              by_cases hw : (env.wallet.publicKey.isNone || !env.wallet.canSign) = true
              · rw [if_pos hw]
                exact Or.inr (Or.inl ⟨h402, _, rfl⟩)
              · rw [if_neg hw]
                have hev := createPaymentTransaction_events_rpcRead req env.wallet env.chain
                cases hbuilt : (createPaymentTransaction req env.wallet env.chain).1 with
                | error e =>
                    dsimp only
                    exact Or.inr (Or.inr (Or.inl ⟨h402, e, _, hev, rfl⟩))
                | ok tx =>
                    dsimp only
                    cases hsig : env.wallet.signError with
                    | some msg =>
                        dsimp only
                        refine Or.inr (Or.inr (Or.inr (Or.inl ⟨h402, msg, _, hev, ?_⟩)))
                        simp
                    | none =>
                        dsimp only
                        by_cases hr200 : env.retryResponse.status = 200
                        · rw [if_pos hr200]
                          cases hhdr : (if env.retryResponse.hasPaymentResponseHeader then
                              env.retryResponse.paymentResponseTx else none) with
                          | some sig =>
                              dsimp only
                              refine Or.inr (Or.inr (Or.inr (Or.inr
                                ⟨h402, _, [], _, hev, by intro ev h; simp at h, ?_, rfl,
                                 fun habs => by omega⟩)))
                              simp
                          | none =>
                              dsimp only
                              by_cases hpb : (env.wallet.publicKey.isSome &&
                                  (req.payTo != "")) = true
                              · rw [if_pos hpb]
                                cases hpr : env.pollResult with
                                | some sig =>
                                    dsimp only
                                    refine Or.inr (Or.inr (Or.inr (Or.inr
                                      ⟨h402, _, List.replicate env.pollReads Event.rpcRead, _,
                                       hev, replicate_rpcRead_all _, ?_, rfl,
                                       fun habs => by omega⟩)))
                                    simp
                                | none =>
                                    dsimp only
                                    refine Or.inr (Or.inr (Or.inr (Or.inr
                                      ⟨h402, _, List.replicate env.pollReads Event.rpcRead, _,
                                       hev, replicate_rpcRead_all _, ?_, rfl,
                                       fun habs => by omega⟩)))
                                    simp
                              · rw [if_neg hpb]
                                refine Or.inr (Or.inr (Or.inr (Or.inr
                                  ⟨h402, _, [], _, hev, by intro ev h; simp at h, ?_, rfl,
                                   fun habs => by omega⟩)))
                                simp
                        · rw [if_neg hr200]
                          by_cases hr402 : env.retryResponse.status = 402
                          · rw [if_pos hr402]
                            refine Or.inr (Or.inr (Or.inr (Or.inr
                              ⟨h402, _, [], _, hev, by intro ev h; simp at h, ?_, rfl,
                               fun _ => rfl⟩)))
                            simp
                          · rw [if_neg hr402]
                            refine Or.inr (Or.inr (Or.inr (Or.inr
                              ⟨h402, _, [], _, hev, by intro ev h; simp at h, ?_, rfl,
                               fun habs => absurd habs hr402⟩)))
                            simp
  · unfold wrapFetchWithPaymentSolana
    rw [if_neg h402]
    exact Or.inl ⟨h402, rfl⟩

theorem countP_eq_zero_of_all_rpcRead (p : Event → Bool) (hp : p Event.rpcRead = false)
    (l : List Event) (h : ∀ ev ∈ l, ev = Event.rpcRead) : l.countP p = 0 := by
  induction l with
  | nil => rfl
  | cons a t ih =>
      have ha := h a (by simp)
      subst ha
      rw [List.countP_cons, hp]
      simpa using ih (fun ev hev => h ev (by simp [hev]))

/-- C3: one gated call never broadcasts a transaction (no broadcast event
occurs in any trace), builds at most one transaction, and issues at most
two HTTP requests — the original one, and at most one retry carrying the
X-Payment header; a non-402 first response is returned unchanged after a
single request; and when the first response is 402 and the retry also
answers 402 the orchestrator raises an error rather than attempting a
second payment — when the retry was actually issued, exactly the
verification-failure error derived from the facilitator response. -/
theorem claim_C3_single_payment (env : FetchEnv) :
    ((wrapFetchWithPaymentSolana env).2.countP Event.isBroadcastEv = 0) ∧
    ((wrapFetchWithPaymentSolana env).2.countP Event.isBuildEv ≤ 1) ∧
    ((wrapFetchWithPaymentSolana env).2.filter Event.isRequestEv = [.request false] ∨
     (wrapFetchWithPaymentSolana env).2.filter Event.isRequestEv =
       [.request false, .request true]) ∧
    (env.firstResponse.status ≠ 402 →
       (wrapFetchWithPaymentSolana env).1 = .ok env.firstResponse ∧
       (wrapFetchWithPaymentSolana env).2 = [.request false]) ∧
    (env.firstResponse.status = 402 → env.retryResponse.status = 402 →
       (∃ msg, (wrapFetchWithPaymentSolana env).1 = .error msg) ∧
       ((wrapFetchWithPaymentSolana env).2.filter Event.isRequestEv =
           [.request false, .request true] →
        (wrapFetchWithPaymentSolana env).1 =
          .error (verificationFailureMsg env.retryResponse.errorField))) := by
  rcases wrapFetch_cases env with ⟨hne, heq⟩ | ⟨h4, msg, heq⟩ | ⟨h4, msg, pre, hpre, heq⟩ |
    ⟨h4, msg, pre, hpre, heq⟩ | ⟨h4, pre, post, res, hpre, hpost, htr, hres, himp⟩
  · rw [heq]
    refine ⟨by simp [Event.isBroadcastEv], by simp [Event.isBuildEv],
      Or.inl (by simp [Event.isRequestEv]), fun _ => ⟨rfl, rfl⟩, fun h _ => absurd h hne⟩
  · rw [heq]
    refine ⟨by simp [Event.isBroadcastEv], by simp [Event.isBuildEv],
      Or.inl (by simp [Event.isRequestEv]), fun h => absurd h4 h, ?_⟩
    intro _ _
    refine ⟨⟨msg, rfl⟩, ?_⟩
    intro habs
    simp [Event.isRequestEv] at habs
  · rw [heq]
    have e1 := filter_eq_nil_of_all_rpcRead Event.isRequestEv rfl pre hpre
    have e2 := countP_eq_zero_of_all_rpcRead Event.isBroadcastEv rfl pre hpre
    have e3 := countP_eq_zero_of_all_rpcRead Event.isBuildEv rfl pre hpre
    refine ⟨by simp [List.countP_append, e2, Event.isBroadcastEv],
      by simp [List.countP_append, e3, Event.isBuildEv],
      Or.inl (by simp [List.filter_append, e1, Event.isRequestEv]),
      fun h => absurd h4 h, ?_⟩
    intro _ _
    refine ⟨⟨msg, rfl⟩, ?_⟩
    intro habs
    simp [List.filter_append, e1, Event.isRequestEv] at habs
  · rw [heq]
    have e1 := filter_eq_nil_of_all_rpcRead Event.isRequestEv rfl pre hpre
    have e2 := countP_eq_zero_of_all_rpcRead Event.isBroadcastEv rfl pre hpre
    have e3 := countP_eq_zero_of_all_rpcRead Event.isBuildEv rfl pre hpre
    refine ⟨by simp [List.countP_append, e2, Event.isBroadcastEv],
      by simp [List.countP_append, e3, Event.isBuildEv, Event.isBuildEv],
      Or.inl (by simp [List.filter_append, e1, Event.isRequestEv, Event.isBroadcastEv,
        Event.isCoreEv, Event.isBuildEv]),
      fun h => absurd h4 h, ?_⟩
    intro _ _
    refine ⟨⟨msg, rfl⟩, ?_⟩
    intro habs
    simp [List.filter_append, e1, Event.isRequestEv] at habs
  · have e1 := filter_eq_nil_of_all_rpcRead Event.isRequestEv rfl pre hpre
    have e1p := filter_eq_nil_of_all_rpcRead Event.isRequestEv rfl post hpost
    have e2 := countP_eq_zero_of_all_rpcRead Event.isBroadcastEv rfl pre hpre
    have e2p := countP_eq_zero_of_all_rpcRead Event.isBroadcastEv rfl post hpost
    have e3 := countP_eq_zero_of_all_rpcRead Event.isBuildEv rfl pre hpre
    have e3p := countP_eq_zero_of_all_rpcRead Event.isBuildEv rfl post hpost
    rw [htr]
    refine ⟨by simp [List.countP_append, e2, e2p, Event.isBroadcastEv],
      by simp [List.countP_append, e3, e3p, Event.isBuildEv],
      Or.inr (by simp [List.filter_append, e1, e1p, Event.isRequestEv]),
      fun h => absurd h4 h, ?_⟩
    intro _ h402r
    rw [hres, himp h402r]
    exact ⟨⟨_, rfl⟩, fun _ => rfl⟩

/-- C4: in a gated call that reaches signing, the trace restricted to the
build, blockhash-fetch and sign events is exactly buildTx, then
blockhashFetch of the latest blockhash, then sign of a transaction
carrying that same value — the blockhash is fetched strictly after
createPaymentTransaction returns and strictly before wallet signing is
invoked, it is the only blockhash fetch of the call, and no
earlier-fetched blockhash is used. -/
theorem claim_C4_fresh_blockhash (env : FetchEnv) (data : ParsedBody402)
    (req : PaymentRequirements) (tx : SolTransaction)
    (h1 : env.firstResponse.status = 402)
    (h2 : env.firstResponse.body402 = some data)
    (h3 : requirementsOf data = some req)
    (h4 : jsStrFalsy (req.extra.bind PaymentExtra.feePayer) = false)
    (h5 : env.wallet.publicKey.isSome = true)
    (h6 : env.wallet.canSign = true)
    (h7 : (createPaymentTransaction req env.wallet env.chain).1 = .ok tx) :
    (wrapFetchWithPaymentSolana env).2.filter Event.isCoreEv =
      [.buildTx, .blockhashFetch env.chain.latestBlockhash,
       .sign (some env.chain.latestBlockhash)] := by
  obtain ⟨pk, hpk⟩ := Option.isSome_iff_exists.mp h5
  have hw : (env.wallet.publicKey.isNone || !env.wallet.canSign) = false := by
    simp [hpk, h6]
  have hfp' : ¬(jsStrFalsy (req.extra.bind PaymentExtra.feePayer) = true) := by
    simp [h4]
  have hcpre := filter_eq_nil_of_all_rpcRead Event.isCoreEv rfl
    (createPaymentTransaction req env.wallet env.chain).2
    (createPaymentTransaction_events_rpcRead req env.wallet env.chain)
  have hcrep := filter_eq_nil_of_all_rpcRead Event.isCoreEv rfl
    (List.replicate env.pollReads Event.rpcRead) (replicate_rpcRead_all env.pollReads)
  unfold wrapFetchWithPaymentSolana
  try dsimp only
  rw [if_pos h1]
  simp only [h2]
  try dsimp only
  simp only [h3]
  try dsimp only
  rw [if_neg hfp', if_neg (by simp [hw])]
  simp only [h7]
  try dsimp only
  cases hsig : env.wallet.signError with
  | some msg =>
      try dsimp only
      simp [List.filter_append, hcpre, Event.isCoreEv]
  | none =>
      try dsimp only
      repeat' split
      all_goals simp [List.filter_append, hcpre, hcrep, Event.isCoreEv]

theorem findBestMatchAux_characterization (nq : String) (kws phrases : List String) :
    ∀ (entries : List KBEntry) (best : Option KBEntry) (bestScore : Nat),
      findBestMatchAux nq kws phrases entries best bestScore =
        (match entries.find? (passesChecks nq phrases) with
         | some e => some e
         | none => scoreThreshold (entries.foldl (scoreStep kws) (best, bestScore))) := by
  intro entries
  induction entries with
  | nil => intro best bestScore; rfl
  | cons e rest ih =>
      intro best bestScore
      by_cases h1 : (jsToLower e.q == nq) = true
      · have hp : passesChecks nq phrases e = true := by
          simp [passesChecks, h1]
        simp [findBestMatchAux, h1, hp, List.find?_cons_of_pos]
      · simp only [Bool.not_eq_true] at h1
        by_cases h2 : (jsIncludes (jsToLower e.q) nq || jsIncludes nq (jsToLower e.q)) = true
        · have hp : passesChecks nq phrases e = true := by
            simp only [passesChecks, Bool.or_eq_true] at *
            tauto
          simp [findBestMatchAux, h1, h2, hp, List.find?_cons_of_pos]
        · simp only [Bool.not_eq_true] at h2
          by_cases h3 : (phrases.any fun ph => jsIncludes (jsToLower e.q) ph) = true
          · have hp : passesChecks nq phrases e = true := by
              simp only [passesChecks, Bool.or_eq_true] at *
              tauto
            simp [findBestMatchAux, h1, h2, h3, hp, List.find?_cons_of_pos]
          · simp only [Bool.not_eq_true] at h3
            have hp : passesChecks nq phrases e = false := by
              simp only [passesChecks, Bool.or_eq_true] at *
              simp [h1, h2, h3]
            rw [List.find?_cons_of_neg _ (by simp [hp]), List.foldl_cons]
            simp only [findBestMatchAux, h1, Bool.false_eq_true, if_false, h2, h3]
            unfold scoreStep
            by_cases hs : bestScore < entryScore kws (jsToLower e.q)
            · rw [if_pos hs, if_pos hs]
              exact ih (some e) (entryScore kws (jsToLower e.q))
            · rw [if_neg hs, if_neg hs]
              exact ih best bestScore

/-- C2 (amended): findBestMatch normalizes the question by lowercasing and
trimming (empty input returns nothing), then makes a single pass over the
records in catalog order — the first record satisfying any of exact
equality, containment in either direction, or a two-word keyword phrase
occurring in the record question (keywords drop the stop words and words
of length at most 2) is returned; when no record passes a check,
keyword-overlap scoring decides: each keyword contained in a record
question adds its length, plus a flat 5 when at least two matched, the
first strict maximum is kept, and the best record is returned only when
its score is at least 8.  The original cross-record rule precedence
(all records tried for exact equality before any containment, before any
phrase hit) is refuted by the counterexample below. -/
theorem claim_C2_matcher (question : String) :
    findBestMatch question =
      (let nq := jsTrim (jsToLower question)
       if nq == "" then none
       else
         match KNOWLEDGE.find? (passesChecks nq (twoWordPhrases (questionKeywordsOf nq))) with
         | some e => some e
         | none =>
             scoreThreshold (KNOWLEDGE.foldl (scoreStep (questionKeywordsOf nq)) (none, 0))) := by
  unfold findBestMatch
  by_cases h : (jsTrim (jsToLower question) == "") = true
  · simp only [h, if_true]
  · simp only [h, Bool.false_eq_true, if_false]
    exact findBestMatchAux_characterization _ _ _ KNOWLEDGE none 0

theorem claim_C1_witness :
    ∃ tx : SolTransaction,
      (createPaymentTransaction reqW walletW chainW).1 = .ok tx ∧
      tx.instructions =
        [Instruction.setComputeUnitLimit 200000, Instruction.setComputeUnitPrice 1] ++
          (if (chainW.account (chainW.ata "USDC" reqW.payTo)).isSome then []
           else [Instruction.createAssociatedTokenAccount "alice" (chainW.ata "USDC" reqW.payTo)
                   reqW.payTo "USDC"]) ++
          [Instruction.transferChecked (chainW.ata "USDC" "alice") "USDC"
             (chainW.ata "USDC" reqW.payTo) "alice" reqW.maxAmountRequired 6] ∧
      (tx.instructions.length = 4 ↔
        (chainW.account (chainW.ata "USDC" reqW.payTo)).isSome = false) ∧
      (tx.instructions.length = 3 ∨ tx.instructions.length = 4) ∧
      tx.feePayer = some "facilitator" ∧
      ("facilitator" ≠ "alice" → tx.feePayer ≠ some "alice") :=
  claim_C1_createPaymentTransaction reqW walletW chainW "alice" "USDC" "facilitator"
    ⟨some "facilitator"⟩ ⟨5000⟩ 6 rfl rfl (by decide) rfl rfl (by decide) (by decide)
    (by decide) (by decide)

theorem claim_C3_witness :
    (wrapFetchWithPaymentSolana envW).2.countP Event.isBroadcastEv = 0 ∧
    (∃ msg, (wrapFetchWithPaymentSolana envW).1 = .error msg) ∧
    (wrapFetchWithPaymentSolana envW).1 =
      .error (verificationFailureMsg envW.retryResponse.errorField) :=
  ⟨(claim_C3_single_payment envW).1, ((claim_C3_single_payment envW).2.2.2.2 rfl rfl).1,
   ((claim_C3_single_payment envW).2.2.2.2 rfl rfl).2 (by decide)⟩

theorem claim_C4_witness :
    (wrapFetchWithPaymentSolana envW).2.filter Event.isCoreEv =
      [.buildTx, .blockhashFetch envW.chain.latestBlockhash,
       .sign (some envW.chain.latestBlockhash)] :=
  claim_C4_fresh_blockhash envW dataW reqW txW rfl rfl rfl (by decide) rfl rfl rfl

theorem claim_C5_witness :
    (quizNext sessionsW (some "s1")).1 =
      ⟨409, some "pending_payment", some "Payment required before proceeding", none, none⟩ ∧
    (quizNext sessionsW (some "s1")).2 = sessionsW :=
  (claim_C5_quizNext sessionsW "s1" ⟨"q1", some .wrong, false, 5⟩ (by decide) rfl).2 (by decide)

theorem claim_C7_witness :
    (createPaymentTransaction reqW ⟨none, false, none⟩ chainW).1 =
      .error "Wallet not connected" ∧
    (createPaymentTransaction { reqW with asset := none } walletW chainW).1 =
      .error "Payment requirements missing asset (token mint address)" ∧
    (createPaymentTransaction reqW ⟨some "carol", true, none⟩ chainW).1 =
      .error ("Token account not found for required mint: " ++ "USDC" ++
        ". Please ensure you have this token in your wallet. " ++
        "You may need to receive some tokens first.") ∧
    (createPaymentTransaction { reqW with maxAmountRequired := 10000 } walletW chainW).1 =
      .error ("Insufficient balance. Required: " ++ toString 10000 ++
        ", Available: " ++ toString 5000) ∧
    (createPaymentTransaction { reqW with extra := none } walletW chainW).1 =
      .error "Payment requirements missing extra.feePayer (facilitator address)" ∧
    ["Wallet not connected",
     "Payment requirements missing asset (token mint address)",
     "Token account not found for required mint: " ++ "USDC" ++
       ". Please ensure you have this token in your wallet. " ++
       "You may need to receive some tokens first.",
     "Insufficient balance. Required: " ++ toString 10000 ++ ", Available: " ++ toString 5000,
     "Payment requirements missing extra.feePayer (facilitator address)"].Nodup :=
  ⟨claim_C7_builder_errors.1 reqW ⟨none, false, none⟩ chainW rfl,
   claim_C7_builder_errors.2.1 { reqW with asset := none } walletW chainW "alice" rfl rfl,
   claim_C7_builder_errors.2.2.1 reqW ⟨some "carol", true, none⟩ chainW "carol" "USDC"
     rfl rfl (by decide) (by decide),
   claim_C7_builder_errors.2.2.2.1 { reqW with maxAmountRequired := 10000 } walletW chainW
     "alice" "USDC" ⟨5000⟩ rfl rfl (by decide) (by decide) (by decide),
   claim_C7_builder_errors.2.2.2.2.1 { reqW with extra := none } walletW chainW
     "alice" "USDC" ⟨5000⟩ 6 rfl rfl (by decide) (by decide) (by decide) (by decide) rfl,
   by decide⟩

theorem claim_C8_witness :
    ((awardUnlock questW "PDAs" "pp-what").xp =
       if (questW.unlocked "PDAs").contains "pp-what" then questW.xp else questW.xp + 10) ∧
    (awardUnlock (awardUnlock questW "PDAs" "pp-what") "PDAs" "pp-what").xp =
      (awardUnlock questW "PDAs" "pp-what").xp ∧
    ((awardUnlock (awardUnlock questW "PDAs" "pp-what") "PDAs" "pp-what").unlocked
        "PDAs").count "pp-what" = 1 :=
  claim_C8_awardUnlock questW "PDAs" "pp-what" (by decide)

theorem claim_C9_witness :
    (recordDailyCompletion questW2 "2024-01-02T10:00:00Z").xp = questW2.xp + 5 ∧
    (recordDailyCompletion questW2 "2024-01-02T10:00:00Z").lastDaily =
      some (jsDatePart "2024-01-02T10:00:00Z") ∧
    (recordDailyCompletion questW2 "2024-01-02T10:00:00Z").streak =
      some (questW2.streak.getD 0 + 1) := by
  have h := (claim_C9_recordDaily questW2 "2024-01-02T10:00:00Z").2 (by decide)
  exact ⟨h.1, h.2.1, h.2.2.2.1 "2024-01-01" rfl (by decide)⟩

/-- C2 counterexample: on the question "Solana account? What is a PDA?" the
implemented matcher returns the early record sb-accounts, found through a
two-word phrase hit, while the rule-ordered matcher described by the claim
returns the later record pp-what, whose question is contained in the input —
so the claimed cross-record precedence of containment over phrase matching
does not hold for the code. -/
theorem claim_C2_counterexample :
    (findBestMatch "Solana account? What is a PDA?").map KBEntry.id = some "sb-accounts" ∧
    (specRuleOrderedMatch "Solana account? What is a PDA?").map KBEntry.id = some "pp-what" ∧
    findBestMatch "Solana account? What is a PDA?" ≠
      specRuleOrderedMatch "Solana account? What is a PDA?" := by
  refine ⟨by decide, by decide, by decide⟩

set_option maxRecDepth 100000 in
/-- C10: POST /rag/preview with question "What is a PDA?" answers 200 with
type preview, id pp-what, and the preview sentence exactly
"A PDA is a program-owned address derived from seeds and a bump." — the
first sentence of the answer of that entry after stripping code blocks and
markdown. -/
theorem claim_C10_preview :
    ragPreview (some "What is a PDA?") =
      ⟨200, some "preview", some "pp-what",
       some "A PDA is a program-owned address derived from seeds and a bump.", none, none⟩ := by
  decide
